import Mathlib

/-!
# Picade LUFA firmware: input-to-report mapping

A shallow embedding of the two HID report callbacks of the firmware

* `Joystick/Joystick.c`            (joystick profile),
* `KeyboardMouse/KeyboardMouse.c`  (keyboard/mouse profile),

together with theorems about the reports they build.

Conventions of the embedding.

* The board header `Picade.h` and the LUFA headers are not among the two
  source files, so every constant they define (`JOY_UP`, `BUTTON1`,
  `HID_KEYBOARD_SC_A`, `LEDS_LED1`, ...) is a field of a parameter structure.
* A `uint8_t` local initialised from a status read holds the read value
  modulo `2^8`; `|=` into a `uintN_t` field is followed by `% 2^N`.
* The C test `if (Status & MASK)` is `asserted Status MASK`.
-/

namespace Picade

/-! ## Constants of the missing headers -/

/-- Bit masks of the input lines, as `Picade.h` defines them. -/
structure Masks where
  JOY_UP : Nat
  JOY_DOWN : Nat
  JOY_LEFT : Nat
  JOY_RIGHT : Nat
  UTIL_START : Nat
  UTIL_SELECT : Nat
  UTIL_ENTER : Nat
  UTIL_ESC : Nat
  BUTTON1 : Nat
  BUTTON2 : Nat
  BUTTON3 : Nat
  BUTTON4 : Nat
  BUTTON5 : Nat
  BUTTON6 : Nat
  GPIO1 : Nat
  GPIO2 : Nat
  GPIO3 : Nat
  GPIO4 : Nat
  GPIO5 : Nat
  GPIO6 : Nat
  deriving DecidableEq, Repr

/-- The values returned by the six status reads of one poll:
`Joystick_GetStatus()`, `Util_GetStatus()`, `Buttons_GetStatus()`,
`GPIOD_GetStatus()`, `GPIOB_GetStatus()`, `GPIOC_GetStatus()`. -/
structure InputSnapshot where
  Joy : Nat
  Util : Nat
  Buttons : Nat
  GPIOD : Nat
  GPIOB : Nat
  GPIOC : Nat
  deriving DecidableEq, Repr

/-- The C condition `Status & MASK`, where `Status` is the `uint8_t` local that
received the status read `raw`. -/
def asserted (raw mask : Nat) : Bool :=
  ((raw % 256) &&& mask) != 0

/-! ## Joystick profile (`Joystick/Joystick.c`) -/

namespace Joystick

/-- `USB_JoystickReport_Data_t`: two signed axes and a 16-bit button mask. -/
structure USB_JoystickReport_Data_t where
  X : Int
  Y : Int
  Buttons : Nat
  deriving DecidableEq, Repr

/-- The buffer as `memset(..., 0, ...)` leaves it. -/
def zeroReport : USB_JoystickReport_Data_t :=
  { X := 0, Y := 0, Buttons := 0 }

/-- Modelled from the spec: `sizeof(USB_JoystickReport_Data_t)`; the type is
declared in the missing `Joystick.h`, the spec gives the layout
(X:int8, Y:int8, Buttons:uint16). -/
def sizeofReport : Nat := 4

/-- What the callback leaves behind: its return value, the report buffer and
`*ReportSize`. -/
structure CreateResult where
  ForceSend : Bool
  ReportData : USB_JoystickReport_Data_t
  ReportSize : Nat
  deriving DecidableEq, Repr

/-- `if (cond) JoystickReport->Buttons |= (1 << k);` on the `uint16_t` field. -/
def orButton (r : USB_JoystickReport_Data_t) (cond : Bool) (k : Nat) :
    USB_JoystickReport_Data_t :=
  if cond then { r with Buttons := (r.Buttons ||| (1 <<< k)) % 65536 } else r

/-- `CALLBACK_HID_Device_CreateHIDReport` of `Joystick.c`, lines 140-213.
`buf` is the content of `ReportData` on entry. -/
def CALLBACK_HID_Device_CreateHIDReport (m : Masks) (s : InputSnapshot)
    (buf : USB_JoystickReport_Data_t) : CreateResult :=
  let r := buf
  -- JOYSTICK
  let r := if asserted s.Joy m.JOY_UP then { r with Y := -100 }
           else if asserted s.Joy m.JOY_DOWN then { r with Y := 100 }
           else r
  let r := if asserted s.Joy m.JOY_LEFT then { r with X := -100 }
           else if asserted s.Joy m.JOY_RIGHT then { r with X := 100 }
           else r
  -- UTIL
  let r := orButton r (asserted s.Util m.UTIL_START) 0
  let r := orButton r (asserted s.Util m.UTIL_SELECT) 1
  let r := orButton r (asserted s.Util m.UTIL_ENTER) 2
  let r := orButton r (asserted s.Util m.UTIL_ESC) 3
  -- BUTTON
  let r := orButton r (asserted s.Buttons m.BUTTON1) 4
  let r := orButton r (asserted s.Buttons m.BUTTON2) 5
  let r := orButton r (asserted s.Buttons m.BUTTON3) 6
  let r := orButton r (asserted s.Buttons m.BUTTON4) 7
  let r := orButton r (asserted s.Buttons m.BUTTON5) 8
  let r := orButton r (asserted s.Buttons m.BUTTON6) 9
  -- GPIO
  let r := orButton r (asserted s.GPIOD m.GPIO1) 10
  let r := orButton r (asserted s.GPIOD m.GPIO2) 11
  let r := orButton r (asserted s.GPIOB m.GPIO3) 12
  let r := orButton r (asserted s.GPIOB m.GPIO4) 13
  let r := orButton r (asserted s.GPIOB m.GPIO5) 14
  let r := orButton r (asserted s.GPIOC m.GPIO6) 15
  { ForceSend := false, ReportData := r, ReportSize := sizeofReport }

/-- Whether the input mapped to button bit `k` is asserted in the snapshot:
START, SELECT, ENTER, ESC for bits 0..3, BUTTON1..6 for bits 4..9, GPIO1..2
for bits 10..11, GPIO3..5 for bits 12..14, GPIO6 for bit 15. Bits 16 and
above have no input. -/
def buttonInput (m : Masks) (s : InputSnapshot) : Nat → Bool
  | 0 => asserted s.Util m.UTIL_START
  | 1 => asserted s.Util m.UTIL_SELECT
  | 2 => asserted s.Util m.UTIL_ENTER
  | 3 => asserted s.Util m.UTIL_ESC
  | 4 => asserted s.Buttons m.BUTTON1
  | 5 => asserted s.Buttons m.BUTTON2
  | 6 => asserted s.Buttons m.BUTTON3
  | 7 => asserted s.Buttons m.BUTTON4
  | 8 => asserted s.Buttons m.BUTTON5
  | 9 => asserted s.Buttons m.BUTTON6
  | 10 => asserted s.GPIOD m.GPIO1
  | 11 => asserted s.GPIOD m.GPIO2
  | 12 => asserted s.GPIOB m.GPIO3
  | 13 => asserted s.GPIOB m.GPIO4
  | 14 => asserted s.GPIOB m.GPIO5
  | 15 => asserted s.GPIOC m.GPIO6
  | _ => false

end Joystick

/-! ## Keyboard/mouse profile (`KeyboardMouse/KeyboardMouse.c`) -/

namespace KeyboardMouse

/-- Key-code constants of the LUFA HID class header used by the keyboard
branch. -/
structure ScanCodes where
  HID_KEYBOARD_SC_ENTER : Nat
  HID_KEYBOARD_SC_ESCAPE : Nat
  HID_KEYBOARD_SC_LEFT_CONTROL : Nat
  HID_KEYBOARD_SC_LEFT_ALT : Nat
  HID_KEYBOARD_SC_A : Nat
  HID_KEYBOARD_SC_Z : Nat
  HID_KEYBOARD_SC_S : Nat
  HID_KEYBOARD_SC_X : Nat
  HID_KEYBOARD_SC_D : Nat
  HID_KEYBOARD_SC_C : Nat
  HID_KEYBOARD_SC_I : Nat
  HID_KEYBOARD_SC_J : Nat
  HID_KEYBOARD_SC_K : Nat
  HID_KEYBOARD_SC_L : Nat
  deriving DecidableEq, Repr

/-- `USB_KeyboardReport_Data_t`: `Modifier`, `Reserved` and the array
`uint8_t KeyCode[6]`, held as the list of its six slots. -/
structure USB_KeyboardReport_Data_t where
  Modifier : Nat
  Reserved : Nat
  KeyCode : List Nat
  deriving DecidableEq, Repr

/-- `USB_MouseReport_Data_t`: a button mask and two signed deltas. -/
structure USB_MouseReport_Data_t where
  Button : Nat
  X : Int
  Y : Int
  deriving DecidableEq, Repr

/-- The keyboard buffer as `memset(..., 0, ...)` leaves it. -/
def zeroKeyboardReport : USB_KeyboardReport_Data_t :=
  { Modifier := 0, Reserved := 0, KeyCode := List.replicate 6 0 }

/-- The mouse buffer as `memset(..., 0, ...)` leaves it. -/
def zeroMouseReport : USB_MouseReport_Data_t :=
  { Button := 0, X := 0, Y := 0 }

/-- Modelled from the spec: `sizeof(USB_KeyboardReport_Data_t)`; the type is
declared in a missing LUFA header, the spec gives the layout
(Modifier:uint8, Reserved:uint8, KeyCode[6]:uint8). -/
def sizeofKeyboardReport : Nat := 8

/-- Modelled from the spec: `sizeof(USB_MouseReport_Data_t)`; the type is
declared in a missing LUFA header, the spec gives the layout
(Button:uint8, X:int8, Y:int8). -/
def sizeofMouseReport : Nat := 3

/-- The two interface objects the callbacks compare `HIDInterfaceInfo` with. -/
inductive HIDInterface where
  | Keyboard_HID_Interface
  | Mouse_HID_Interface
  deriving DecidableEq, Repr

/-- State of the keyboard branch between two statements: the report, the
`uint8_t` append cursor, and the stores `KeyCode[i] = v` the branch made at an
index `i` outside the six slots (index and byte, in program order). The
array is the last member of the report, so such a store lands in the memory
that follows the report buffer and changes none of the six slots. -/
structure KeyboardScan where
  report : USB_KeyboardReport_Data_t
  UsedKeyCodes : Nat
  pastEnd : List (Nat × Nat)
  deriving DecidableEq, Repr

/-- `if (cond) KeyboardReport->KeyCode[UsedKeyCodes++] = code;` -/
def putKeyCode (st : KeyboardScan) (cond : Bool) (code : Nat) : KeyboardScan :=
  if cond then
    { report :=
        if st.UsedKeyCodes < 6 then
          { st.report with KeyCode := st.report.KeyCode.set st.UsedKeyCodes (code % 256) }
        else st.report
      pastEnd :=
        if st.UsedKeyCodes < 6 then st.pastEnd
        else st.pastEnd ++ [(st.UsedKeyCodes, code % 256)]
      UsedKeyCodes := (st.UsedKeyCodes + 1) % 256 }
  else st

/-- Lines 181-224 of `KeyboardMouse.c`: the fourteen conditional appends of the
keyboard branch, from `UsedKeyCodes = 0`. -/
def keyboardScan (m : Masks) (k : ScanCodes) (s : InputSnapshot)
    (buf : USB_KeyboardReport_Data_t) : KeyboardScan :=
  let st : KeyboardScan := { report := buf, UsedKeyCodes := 0, pastEnd := [] }
  -- UTIL
  let st := putKeyCode st (asserted s.Util m.UTIL_ENTER) k.HID_KEYBOARD_SC_ENTER
  let st := putKeyCode st (asserted s.Util m.UTIL_ESC) k.HID_KEYBOARD_SC_ESCAPE
  -- BUTTON
  let st := putKeyCode st (asserted s.Buttons m.BUTTON1) k.HID_KEYBOARD_SC_LEFT_CONTROL
  let st := putKeyCode st (asserted s.Buttons m.BUTTON2) k.HID_KEYBOARD_SC_LEFT_ALT
  let st := putKeyCode st (asserted s.Buttons m.BUTTON3) k.HID_KEYBOARD_SC_A
  let st := putKeyCode st (asserted s.Buttons m.BUTTON4) k.HID_KEYBOARD_SC_Z
  let st := putKeyCode st (asserted s.Buttons m.BUTTON5) k.HID_KEYBOARD_SC_S
  let st := putKeyCode st (asserted s.Buttons m.BUTTON6) k.HID_KEYBOARD_SC_X
  -- GPIO
  let st := putKeyCode st (asserted s.GPIOD m.GPIO1) k.HID_KEYBOARD_SC_D
  let st := putKeyCode st (asserted s.GPIOD m.GPIO2) k.HID_KEYBOARD_SC_C
  let st := putKeyCode st (asserted s.GPIOB m.GPIO3) k.HID_KEYBOARD_SC_I
  let st := putKeyCode st (asserted s.GPIOB m.GPIO4) k.HID_KEYBOARD_SC_J
  let st := putKeyCode st (asserted s.GPIOB m.GPIO5) k.HID_KEYBOARD_SC_K
  let st := putKeyCode st (asserted s.GPIOC m.GPIO6) k.HID_KEYBOARD_SC_L
  st

/-- What a callback of this profile leaves behind: its return value, the
report buffer, `*ReportSize`, and the stores made past the end of the
buffer. -/
structure CreateResult (R : Type) where
  ForceSend : Bool
  ReportData : R
  ReportSize : Nat
  pastEnd : List (Nat × Nat)

/-- The keyboard branch of `CALLBACK_HID_Device_CreateHIDReport`
(lines 176-230). -/
def createKeyboardReport (m : Masks) (k : ScanCodes) (s : InputSnapshot)
    (buf : USB_KeyboardReport_Data_t) : CreateResult USB_KeyboardReport_Data_t :=
  let st := keyboardScan m k s buf
  { ForceSend := false, ReportData := st.report,
    ReportSize := sizeofKeyboardReport, pastEnd := st.pastEnd }

/-- The mouse branch of `CALLBACK_HID_Device_CreateHIDReport`
(lines 231-259). -/
def createMouseReport (m : Masks) (s : InputSnapshot)
    (buf : USB_MouseReport_Data_t) : CreateResult USB_MouseReport_Data_t :=
  let r := buf
  -- JOYSTICK
  let r := if asserted s.Joy m.JOY_UP then { r with Y := -1 }
           else if asserted s.Joy m.JOY_DOWN then { r with Y := 1 }
           else r
  let r := if asserted s.Joy m.JOY_LEFT then { r with X := -1 }
           else if asserted s.Joy m.JOY_RIGHT then { r with X := 1 }
           else r
  -- UTIL
  let r := if asserted s.Util m.UTIL_START then
             { r with Button := (r.Button ||| (1 <<< 0)) % 256 } else r
  let r := if asserted s.Util m.UTIL_SELECT then
             { r with Button := (r.Button ||| (1 <<< 1)) % 256 } else r
  { ForceSend := true, ReportData := r, ReportSize := sizeofMouseReport, pastEnd := [] }

/-- The report type `ReportData` is cast to for each interface. -/
abbrev ReportOf : HIDInterface → Type
  | .Keyboard_HID_Interface => USB_KeyboardReport_Data_t
  | .Mouse_HID_Interface => USB_MouseReport_Data_t

/-- `CALLBACK_HID_Device_CreateHIDReport` of `KeyboardMouse.c`,
lines 169-260: the keyboard branch for the keyboard interface, the mouse
branch otherwise. -/
def CALLBACK_HID_Device_CreateHIDReport (m : Masks) (k : ScanCodes) (s : InputSnapshot) :
    (HIDInterfaceInfo : HIDInterface) → ReportOf HIDInterfaceInfo →
      CreateResult (ReportOf HIDInterfaceInfo)
  | .Keyboard_HID_Interface, buf => createKeyboardReport m k s buf
  | .Mouse_HID_Interface, buf => createMouseReport m s buf

/-- The fourteen key inputs in the scan order of the keyboard branch
(utility, buttons, GPIO bank D, bank B, bank C), each with whether it is
asserted and with its key code. -/
def keyTable (m : Masks) (k : ScanCodes) (s : InputSnapshot) : List (Bool × Nat) :=
  [ (asserted s.Util m.UTIL_ENTER, k.HID_KEYBOARD_SC_ENTER),
    (asserted s.Util m.UTIL_ESC, k.HID_KEYBOARD_SC_ESCAPE),
    (asserted s.Buttons m.BUTTON1, k.HID_KEYBOARD_SC_LEFT_CONTROL),
    (asserted s.Buttons m.BUTTON2, k.HID_KEYBOARD_SC_LEFT_ALT),
    (asserted s.Buttons m.BUTTON3, k.HID_KEYBOARD_SC_A),
    (asserted s.Buttons m.BUTTON4, k.HID_KEYBOARD_SC_Z),
    (asserted s.Buttons m.BUTTON5, k.HID_KEYBOARD_SC_S),
    (asserted s.Buttons m.BUTTON6, k.HID_KEYBOARD_SC_X),
    (asserted s.GPIOD m.GPIO1, k.HID_KEYBOARD_SC_D),
    (asserted s.GPIOD m.GPIO2, k.HID_KEYBOARD_SC_C),
    (asserted s.GPIOB m.GPIO3, k.HID_KEYBOARD_SC_I),
    (asserted s.GPIOB m.GPIO4, k.HID_KEYBOARD_SC_J),
    (asserted s.GPIOB m.GPIO5, k.HID_KEYBOARD_SC_K),
    (asserted s.GPIOC m.GPIO6, k.HID_KEYBOARD_SC_L) ]

/-- The key codes of the asserted entries of a table, in table order, each as
the byte a `uint8_t` slot holds. -/
def pressedOf (t : List (Bool × Nat)) : List Nat :=
  (t.filter (fun e => e.1)).map (fun e => e.2 % 256)

/-- The six slots of an array that was zero and then received the bytes `w`
one per slot from slot 0 on, as far as the slots reach. -/
def slotsAfter (w : List Nat) : List Nat :=
  w.take 6 ++ List.replicate (6 - w.length) 0

/-- The state of the scan after the bytes `w` were appended to a zeroed
report: the cursor counts them, the slots hold the first six, the others
were stored past the array, each at its own index. -/
def scanAfter (w : List Nat) : KeyboardScan :=
  { report := { Modifier := 0, Reserved := 0, KeyCode := slotsAfter w }
    UsedKeyCodes := w.length
    pastEnd := w.enum.drop 6 }

/-- The key codes of the asserted key inputs of a snapshot, in scan order. -/
def pressedKeyCodes (m : Masks) (k : ScanCodes) (s : InputSnapshot) : List Nat :=
  pressedOf (keyTable m k s)

/-- The number of asserted key inputs of a snapshot (ENTER, ESC,
BUTTON1..6, GPIO1..6). -/
def assertedKeyCount (m : Masks) (k : ScanCodes) (s : InputSnapshot) : Nat :=
  (keyTable m k s).countP (fun e => e.1)

/-- LED masks of the board's LED driver header and the LED bits of the HID
keyboard output report, as the missing headers define them. -/
structure LEDConsts where
  LEDS_NO_LEDS : Nat
  LEDS_LED1 : Nat
  HID_KEYBOARD_LED_NUMLOCK : Nat
  HID_KEYBOARD_LED_CAPSLOCK : Nat
  HID_KEYBOARD_LED_SCROLLLOCK : Nat
  deriving DecidableEq, Repr

/-- `CALLBACK_HID_Device_ProcessHIDReport` of `KeyboardMouse.c`,
lines 270-292. `LEDReport` is the byte `*LEDReport` the report data starts
with. The result is the argument of the call `LEDs_SetAllLEDs(LEDMask)`, or
`none` when the callback makes no such call. -/
def CALLBACK_HID_Device_ProcessHIDReport (c : LEDConsts)
    (HIDInterfaceInfo : HIDInterface) (LEDReport : Nat) : Option Nat :=
  match HIDInterfaceInfo with
  | .Keyboard_HID_Interface =>
    let LEDMask := c.LEDS_NO_LEDS % 256
    let LEDMask := if asserted LEDReport c.HID_KEYBOARD_LED_NUMLOCK then
                     (LEDMask ||| c.LEDS_LED1) % 256 else LEDMask
    let LEDMask := if asserted LEDReport c.HID_KEYBOARD_LED_CAPSLOCK then
                     (LEDMask ||| c.LEDS_LED1) % 256 else LEDMask
    let LEDMask := if asserted LEDReport c.HID_KEYBOARD_LED_SCROLLLOCK then
                     (LEDMask ||| c.LEDS_LED1) % 256 else LEDMask
    some LEDMask
  | .Mouse_HID_Interface => none

/-- Whether at least one of the NumLock, CapsLock, ScrollLock bits of an LED
report byte is set. -/
def anyLockBit (c : LEDConsts) (LEDReport : Nat) : Bool :=
  asserted LEDReport c.HID_KEYBOARD_LED_NUMLOCK
    || asserted LEDReport c.HID_KEYBOARD_LED_CAPSLOCK
    || asserted LEDReport c.HID_KEYBOARD_LED_SCROLLLOCK

/-- Two snapshots agree on the directional group and on the START and SELECT
bits. -/
def agreeOnMouseInputs (m : Masks) (s t : InputSnapshot) : Prop :=
  s.Joy = t.Joy
    ∧ asserted s.Util m.UTIL_START = asserted t.Util m.UTIL_START
    ∧ asserted s.Util m.UTIL_SELECT = asserted t.Util m.UTIL_SELECT

/-- Two snapshots agree on the ENTER and ESC bits, on the face buttons and on
the three GPIO banks. -/
def agreeOnKeyboardInputs (m : Masks) (s t : InputSnapshot) : Prop :=
  asserted s.Util m.UTIL_ENTER = asserted t.Util m.UTIL_ENTER
    ∧ asserted s.Util m.UTIL_ESC = asserted t.Util m.UTIL_ESC
    ∧ s.Buttons = t.Buttons
    ∧ s.GPIOD = t.GPIOD ∧ s.GPIOB = t.GPIOB ∧ s.GPIOC = t.GPIOC

instance (m : Masks) (s t : InputSnapshot) : Decidable (agreeOnMouseInputs m s t) := by
  unfold agreeOnMouseInputs
  infer_instance

instance (m : Masks) (s t : InputSnapshot) : Decidable (agreeOnKeyboardInputs m s t) := by
  unfold agreeOnKeyboardInputs
  infer_instance

end KeyboardMouse

/-! ## Change tracking -/

namespace ChangeTracker

/-- Modelled from the spec: the byte image of a joystick report the Change
Tracker compares; the HID class driver that does the comparison is missing
from the sources, the spec gives the layout (X:int8, Y:int8, Buttons:uint16). -/
def joystickBytes (r : Joystick.USB_JoystickReport_Data_t) : List Nat :=
  [(r.X % 256).toNat, (r.Y % 256).toNat, r.Buttons % 256, r.Buttons / 256 % 256]

/-- Modelled from the spec: the byte image of a mouse report the Change Tracker
compares; the HID class driver is missing from the sources, the spec gives
the layout (Button:uint8, X:int8, Y:int8). -/
def mouseBytes (r : KeyboardMouse.USB_MouseReport_Data_t) : List Nat :=
  [r.Button % 256, (r.X % 256).toNat, (r.Y % 256).toNat]

/-- Modelled from the spec: the Change Tracker of section 4.3 (the HID class
driver `HID_Device_USBTask` that implements it is missing from the sources).
"If forced-send is true, transmit unconditionally and refresh the cache. Else,
perform a byte-exact comparison between the new report and the cached one;
transmit only if they differ in any byte, then refresh the cache; if
identical, skip transmission and leave the cache untouched."
The result is the decision to transmit and the cache afterwards. -/
def changeTracker (forceSend : Bool) (report cache : List Nat) : Bool × List Nat :=
  if forceSend then (true, report)
  else if report ≠ cache then (true, report)
  else (false, cache)

/-- Modelled from the spec: one poll of the joystick device (the driver's poll
routine is missing from the sources): the builder runs on a zeroed buffer
and the Change Tracker decides with the joystick's own cache. -/
def pollJoystick (m : Masks) (s : InputSnapshot) (cache : List Nat) : Bool × List Nat :=
  let res := Joystick.CALLBACK_HID_Device_CreateHIDReport m s Joystick.zeroReport
  changeTracker res.ForceSend (joystickBytes res.ReportData) cache

/-- Modelled from the spec: one poll of the mouse device (the driver's poll
routine is missing from the sources): the builder runs on a zeroed buffer
and the Change Tracker decides with the mouse's own cache. -/
def pollMouse (m : Masks) (k : KeyboardMouse.ScanCodes) (s : InputSnapshot)
    (cache : List Nat) : Bool × List Nat :=
  let res := KeyboardMouse.CALLBACK_HID_Device_CreateHIDReport m k s
    .Mouse_HID_Interface KeyboardMouse.zeroMouseReport
  changeTracker res.ForceSend (mouseBytes res.ReportData) cache

/-- The number of transmissions that consecutive polls of one device make,
one poll per snapshot, starting from the given cache. -/
def transmissions (poll : InputSnapshot → List Nat → Bool × List Nat) :
    List InputSnapshot → List Nat → Nat
  | [], _ => 0
  | s :: rest, cache =>
    (if (poll s cache).1 then 1 else 0) + transmissions poll rest (poll s cache).2

/-- The bytes of the joystick report built from a snapshot. -/
def builtJoystickBytes (m : Masks) (s : InputSnapshot) : List Nat :=
  joystickBytes (Joystick.CALLBACK_HID_Device_CreateHIDReport m s Joystick.zeroReport).ReportData

end ChangeTracker

/-! ## Connection events and host reports -/

/-- The four `LEDMASK_USB_*` indicator patterns, which the missing headers
`Joystick.h` and `KeyboardMouse.h` define. -/
structure LEDMasks where
  LEDMASK_USB_NOTREADY : Nat
  LEDMASK_USB_ENUMERATING : Nat
  LEDMASK_USB_READY : Nat
  LEDMASK_USB_ERROR : Nat
  deriving DecidableEq, Repr

/-- The four patterns are pairwise distinct. -/
def LEDMasks.pairwiseDistinct (l : LEDMasks) : Prop :=
  [l.LEDMASK_USB_NOTREADY, l.LEDMASK_USB_ENUMERATING, l.LEDMASK_USB_READY,
    l.LEDMASK_USB_ERROR].Nodup

instance (l : LEDMasks) : Decidable l.pairwiseDistinct := by
  unfold LEDMasks.pairwiseDistinct
  infer_instance

/-- The four patterns are disjoint: each lights an indicator and no two have
a bit in common. -/
def LEDMasks.disjointPatterns (l : LEDMasks) : Prop :=
  [l.LEDMASK_USB_NOTREADY, l.LEDMASK_USB_ENUMERATING, l.LEDMASK_USB_READY,
    l.LEDMASK_USB_ERROR].Pairwise (fun a b => a &&& b = 0)
  ∧ 0 ∉ [l.LEDMASK_USB_NOTREADY, l.LEDMASK_USB_ENUMERATING, l.LEDMASK_USB_READY,
    l.LEDMASK_USB_ERROR]

instance (l : LEDMasks) : Decidable l.disjointPatterns := by
  unfold LEDMasks.disjointPatterns
  infer_instance

/-- The indicator state after a handler ran: the mask of its
`LEDs_SetAllLEDs` call if it made one, the state before otherwise. -/
def ledStateAfter (before : Nat) (call : Option Nat) : Nat :=
  call.getD before

namespace Joystick

/-- `EVENT_USB_Device_ConfigurationChanged` of `Joystick.c`, lines 106-116.
`joystickOK` is what `HID_Device_ConfigureEndpoints(&Joystick_HID_Interface)`
returns. -/
def EVENT_USB_Device_ConfigurationChanged (l : LEDMasks) (joystickOK : Bool) : Option Nat :=
  let ConfigSuccess := true
  let ConfigSuccess := ConfigSuccess && joystickOK
  some (if ConfigSuccess then l.LEDMASK_USB_READY else l.LEDMASK_USB_ERROR)

/-- `CALLBACK_HID_Device_ProcessHIDReport` of `Joystick.c`, lines 223-230: the
body is empty, so no `LEDs_SetAllLEDs` call is made whatever the report
bytes are. -/
def CALLBACK_HID_Device_ProcessHIDReport (_ReportData : List Nat) : Option Nat :=
  none

/-- The sixteen conditional `Buttons |= (1 << k)` statements in source order,
each as the state of its input and its bit index `k`. -/
def buttonTable (m : Masks) (s : InputSnapshot) : List (Bool × Nat) :=
  [ (asserted s.Util m.UTIL_START, 0),
    (asserted s.Util m.UTIL_SELECT, 1),
    (asserted s.Util m.UTIL_ENTER, 2),
    (asserted s.Util m.UTIL_ESC, 3),
    (asserted s.Buttons m.BUTTON1, 4),
    (asserted s.Buttons m.BUTTON2, 5),
    (asserted s.Buttons m.BUTTON3, 6),
    (asserted s.Buttons m.BUTTON4, 7),
    (asserted s.Buttons m.BUTTON5, 8),
    (asserted s.Buttons m.BUTTON6, 9),
    (asserted s.GPIOD m.GPIO1, 10),
    (asserted s.GPIOD m.GPIO2, 11),
    (asserted s.GPIOB m.GPIO3, 12),
    (asserted s.GPIOB m.GPIO4, 13),
    (asserted s.GPIOB m.GPIO5, 14),
    (asserted s.GPIOC m.GPIO6, 15) ]

/-- The number of set bits of a 16-bit value. -/
def popCount16 (n : Nat) : Nat :=
  (List.range 16).countP (fun j => n.testBit j)

end Joystick

namespace KeyboardMouse

/-- `EVENT_USB_Device_ConfigurationChanged` of `KeyboardMouse.c`,
lines 132-143. `keyboardOK` and `mouseOK` are what
`HID_Device_ConfigureEndpoints` returns for the two interfaces. -/
def EVENT_USB_Device_ConfigurationChanged (l : LEDMasks) (keyboardOK mouseOK : Bool) :
    Option Nat :=
  let ConfigSuccess := true
  let ConfigSuccess := ConfigSuccess && keyboardOK
  let ConfigSuccess := ConfigSuccess && mouseOK
  some (if ConfigSuccess then l.LEDMASK_USB_READY else l.LEDMASK_USB_ERROR)

/-- The fourteen inputs the keyboard branch tests, named after their masks. -/
inductive KeyInput where
  | UTIL_ENTER | UTIL_ESC
  | BUTTON1 | BUTTON2 | BUTTON3 | BUTTON4 | BUTTON5 | BUTTON6
  | GPIO1 | GPIO2 | GPIO3 | GPIO4 | GPIO5 | GPIO6
  deriving DecidableEq, Repr

/-- The status reads: one per input group. -/
inductive InputGroup where
  | Util | Buttons | GPIOD | GPIOB | GPIOC
  deriving DecidableEq, Repr

/-- The status byte in which the keyboard branch tests an input. -/
def KeyInput.group : KeyInput → InputGroup
  | .UTIL_ENTER | .UTIL_ESC => .Util
  | .BUTTON1 | .BUTTON2 | .BUTTON3 | .BUTTON4 | .BUTTON5 | .BUTTON6 => .Buttons
  | .GPIO1 | .GPIO2 => .GPIOD
  | .GPIO3 | .GPIO4 | .GPIO5 => .GPIOB
  | .GPIO6 => .GPIOC

/-- The test the keyboard branch makes for an input. -/
def KeyInput.isAsserted (m : Masks) (s : InputSnapshot) : KeyInput → Bool
  | .UTIL_ENTER => asserted s.Util m.UTIL_ENTER
  | .UTIL_ESC => asserted s.Util m.UTIL_ESC
  | .BUTTON1 => asserted s.Buttons m.BUTTON1
  | .BUTTON2 => asserted s.Buttons m.BUTTON2
  | .BUTTON3 => asserted s.Buttons m.BUTTON3
  | .BUTTON4 => asserted s.Buttons m.BUTTON4
  | .BUTTON5 => asserted s.Buttons m.BUTTON5
  | .BUTTON6 => asserted s.Buttons m.BUTTON6
  | .GPIO1 => asserted s.GPIOD m.GPIO1
  | .GPIO2 => asserted s.GPIOD m.GPIO2
  | .GPIO3 => asserted s.GPIOB m.GPIO3
  | .GPIO4 => asserted s.GPIOB m.GPIO4
  | .GPIO5 => asserted s.GPIOB m.GPIO5
  | .GPIO6 => asserted s.GPIOC m.GPIO6

/-- The key code the keyboard branch appends for an input. -/
def KeyInput.code (k : ScanCodes) : KeyInput → Nat
  | .UTIL_ENTER => k.HID_KEYBOARD_SC_ENTER
  | .UTIL_ESC => k.HID_KEYBOARD_SC_ESCAPE
  | .BUTTON1 => k.HID_KEYBOARD_SC_LEFT_CONTROL
  | .BUTTON2 => k.HID_KEYBOARD_SC_LEFT_ALT
  | .BUTTON3 => k.HID_KEYBOARD_SC_A
  | .BUTTON4 => k.HID_KEYBOARD_SC_Z
  | .BUTTON5 => k.HID_KEYBOARD_SC_S
  | .BUTTON6 => k.HID_KEYBOARD_SC_X
  | .GPIO1 => k.HID_KEYBOARD_SC_D
  | .GPIO2 => k.HID_KEYBOARD_SC_C
  | .GPIO3 => k.HID_KEYBOARD_SC_I
  | .GPIO4 => k.HID_KEYBOARD_SC_J
  | .GPIO5 => k.HID_KEYBOARD_SC_K
  | .GPIO6 => k.HID_KEYBOARD_SC_L

/-- The inputs in the order the keyboard branch tests them. -/
def scanOrder : List KeyInput :=
  [ .UTIL_ENTER, .UTIL_ESC,
    .BUTTON1, .BUTTON2, .BUTTON3, .BUTTON4, .BUTTON5, .BUTTON6,
    .GPIO1, .GPIO2, .GPIO3, .GPIO4, .GPIO5, .GPIO6 ]

/-- The fourteen key codes in scan order, as the bytes a slot holds. -/
def byteCodes (k : ScanCodes) : List Nat :=
  scanOrder.map (fun i => i.code k % 256)

/-- The fourteen key codes are non-zero and pairwise distinct. -/
def codesDistinctNonzero (k : ScanCodes) : Prop :=
  (byteCodes k).Nodup ∧ 0 ∉ byteCodes k

instance (k : ScanCodes) : Decidable (codesDistinctNonzero k) := by
  unfold codesDistinctNonzero
  infer_instance

/-- The six slots of an array that held `old` and then received the bytes `w`
one per slot from slot 0 on, as far as the slots reach. -/
def slotsOver (old w : List Nat) : List Nat :=
  w.take 6 ++ old.drop w.length

/-- The state of the scan after the bytes `w` were appended to the report
`buf`: only the key-code slots change. -/
def scanOver (buf : USB_KeyboardReport_Data_t) (w : List Nat) : KeyboardScan :=
  { report := { buf with KeyCode := slotsOver buf.KeyCode w }
    UsedKeyCodes := w.length
    pastEnd := w.enum.drop 6 }

end KeyboardMouse

/-! ## Sample constants for evaluation -/

/-- One assignment of single-bit masks, distinct within each status byte, used
to evaluate the callbacks on concrete inputs. -/
def sampleMasks : Masks :=
  { JOY_UP := 1, JOY_DOWN := 2, JOY_LEFT := 4, JOY_RIGHT := 8,
    UTIL_START := 1, UTIL_SELECT := 2, UTIL_ENTER := 4, UTIL_ESC := 8,
    BUTTON1 := 1, BUTTON2 := 2, BUTTON3 := 4, BUTTON4 := 8, BUTTON5 := 16, BUTTON6 := 32,
    GPIO1 := 1, GPIO2 := 2, GPIO3 := 1, GPIO4 := 2, GPIO5 := 4, GPIO6 := 1 }

/-- Modelled from the spec: the fourteen key-code constants of the missing
LUFA HID class header. The spec names the constants without their values; each
is given the USB HID keyboard usage code of the key it names. -/
def usageCodes : KeyboardMouse.ScanCodes :=
  { HID_KEYBOARD_SC_ENTER := 0x28, HID_KEYBOARD_SC_ESCAPE := 0x29,
    HID_KEYBOARD_SC_LEFT_CONTROL := 0xE0, HID_KEYBOARD_SC_LEFT_ALT := 0xE2,
    HID_KEYBOARD_SC_A := 0x04, HID_KEYBOARD_SC_Z := 0x1D, HID_KEYBOARD_SC_S := 0x16,
    HID_KEYBOARD_SC_X := 0x1B, HID_KEYBOARD_SC_D := 0x07, HID_KEYBOARD_SC_C := 0x06,
    HID_KEYBOARD_SC_I := 0x0C, HID_KEYBOARD_SC_J := 0x0D, HID_KEYBOARD_SC_K := 0x0E,
    HID_KEYBOARD_SC_L := 0x0F }

/-- Sample LED constants: no LED is mask 0, the indicator is one bit, and the
lock bits are bits 0, 1, 2 of the LED report. -/
def sampleLEDs : KeyboardMouse.LEDConsts :=
  { LEDS_NO_LEDS := 0, LEDS_LED1 := 16, HID_KEYBOARD_LED_NUMLOCK := 1,
    HID_KEYBOARD_LED_CAPSLOCK := 2, HID_KEYBOARD_LED_SCROLLLOCK := 4 }

/-- Sample indicator patterns, pairwise distinct. -/
def sampleLEDMasks : LEDMasks :=
  { LEDMASK_USB_NOTREADY := 16, LEDMASK_USB_ENUMERATING := 160,
    LEDMASK_USB_READY := 96, LEDMASK_USB_ERROR := 144 }

/-- Every key input asserted: ENTER, ESC, the six buttons and the six GPIO
lines. -/
def allKeysSnapshot : InputSnapshot :=
  { Joy := 0, Util := 12, Buttons := 63, GPIOD := 3, GPIOB := 7, GPIOC := 1 }

/-- No input asserted. -/
def idleSnapshot : InputSnapshot :=
  { Joy := 0, Util := 0, Buttons := 0, GPIOD := 0, GPIOB := 0, GPIOC := 0 }

/-! ## Theorems: joystick profile -/

namespace Joystick

theorem orButton_X (r : USB_JoystickReport_Data_t) (c : Bool) (k : Nat) :
    (orButton r c k).X = r.X := by
  unfold orButton; split <;> rfl

theorem orButton_Y (r : USB_JoystickReport_Data_t) (c : Bool) (k : Nat) :
    (orButton r c k).Y = r.Y := by
  unfold orButton; split <;> rfl

theorem orButton_testBit (r : USB_JoystickReport_Data_t) (c : Bool) (k j : Nat)
    (hk : k < 16) (hr : ∀ i, 16 ≤ i → r.Buttons.testBit i = false) :
    (orButton r c k).Buttons.testBit j = (r.Buttons.testBit j || (c && decide (k = j))) := by
  unfold orButton
  cases c
  · simp
  · simp only [if_true, Bool.true_and]
    rw [show (65536 : Nat) = 2 ^ 16 from rfl, Nat.testBit_mod_two_pow, Nat.testBit_or,
      Nat.shiftLeft_eq, Nat.one_mul, Nat.testBit_two_pow]
    by_cases hj : j < 16
    · simp [hj]
    · have h1 := hr j (by omega)
      have h2 : k ≠ j := by omega
      simp [hj, h1, h2]

theorem orButton_high (r : USB_JoystickReport_Data_t) (c : Bool) (k : Nat)
    (hk : k < 16) (hr : ∀ i, 16 ≤ i → r.Buttons.testBit i = false) :
    ∀ i, 16 ≤ i → (orButton r c k).Buttons.testBit i = false := by
  intro i hi
  rw [orButton_testBit r c k i hk hr, hr i hi]
  have : k ≠ i := by omega
  simp [this]

/-- C1: on a zeroed buffer the joystick callback sets Y to -100 when up is
asserted (down being asserted or not), to 100 when down is asserted and up is
not, and leaves it 0 when neither is; X likewise with left and right. -/
theorem joystick_axes (m : Masks) (s : InputSnapshot) :
    (CALLBACK_HID_Device_CreateHIDReport m s zeroReport).ReportData.Y
        = (if asserted s.Joy m.JOY_UP then -100
           else if asserted s.Joy m.JOY_DOWN then 100 else 0)
    ∧ (CALLBACK_HID_Device_CreateHIDReport m s zeroReport).ReportData.X
        = (if asserted s.Joy m.JOY_LEFT then -100
           else if asserted s.Joy m.JOY_RIGHT then 100 else 0) := by
  simp only [CALLBACK_HID_Device_CreateHIDReport, orButton_X, orButton_Y, zeroReport]
  constructor
  · cases asserted s.Joy m.JOY_UP <;> cases asserted s.Joy m.JOY_DOWN <;>
      cases asserted s.Joy m.JOY_LEFT <;> cases asserted s.Joy m.JOY_RIGHT <;> rfl
  · cases asserted s.Joy m.JOY_UP <;> cases asserted s.Joy m.JOY_DOWN <;>
      cases asserted s.Joy m.JOY_LEFT <;> cases asserted s.Joy m.JOY_RIGHT <;> rfl

/-- C2: on a zeroed buffer, bit `k` of the `Buttons` field built by the
joystick callback is set exactly when the input mapped to `k` is asserted
(START, SELECT, ENTER, ESC on bits 0..3, BUTTON1..6 on 4..9, GPIO1..2 on
10..11, GPIO3..5 on 12..14, GPIO6 on 15); no bit above 15 is ever set. -/
theorem joystick_button_mask (m : Masks) (s : InputSnapshot) (k : Nat) :
    (CALLBACK_HID_Device_CreateHIDReport m s zeroReport).ReportData.Buttons.testBit k
      = buttonInput m s k := by
  simp only [CALLBACK_HID_Device_CreateHIDReport]
  generalize hr0 : (if asserted s.Joy m.JOY_LEFT = true then
      { (if asserted s.Joy m.JOY_UP = true then { zeroReport with Y := -100 }
          else if asserted s.Joy m.JOY_DOWN = true then { zeroReport with Y := 100 }
          else zeroReport) with X := -100 }
    else if asserted s.Joy m.JOY_RIGHT = true then
      { (if asserted s.Joy m.JOY_UP = true then { zeroReport with Y := -100 }
          else if asserted s.Joy m.JOY_DOWN = true then { zeroReport with Y := 100 }
          else zeroReport) with X := 100 }
    else (if asserted s.Joy m.JOY_UP = true then { zeroReport with Y := -100 }
          else if asserted s.Joy m.JOY_DOWN = true then { zeroReport with Y := 100 }
          else zeroReport)) = r0
  have hB : r0.Buttons = 0 := by
    subst hr0
    cases asserted s.Joy m.JOY_UP <;> cases asserted s.Joy m.JOY_DOWN <;>
      cases asserted s.Joy m.JOY_LEFT <;> cases asserted s.Joy m.JOY_RIGHT <;> rfl
  have h0 : ∀ i, 16 ≤ i → r0.Buttons.testBit i = false := by
    intro i _; rw [hB]; exact Nat.zero_testBit i
  have h1 := orButton_high _ (asserted s.Util m.UTIL_START) 0 (by decide) h0
  have h2 := orButton_high _ (asserted s.Util m.UTIL_SELECT) 1 (by decide) h1
  have h3 := orButton_high _ (asserted s.Util m.UTIL_ENTER) 2 (by decide) h2
  have h4 := orButton_high _ (asserted s.Util m.UTIL_ESC) 3 (by decide) h3
  have h5 := orButton_high _ (asserted s.Buttons m.BUTTON1) 4 (by decide) h4
  have h6 := orButton_high _ (asserted s.Buttons m.BUTTON2) 5 (by decide) h5
  have h7 := orButton_high _ (asserted s.Buttons m.BUTTON3) 6 (by decide) h6
  have h8 := orButton_high _ (asserted s.Buttons m.BUTTON4) 7 (by decide) h7
  have h9 := orButton_high _ (asserted s.Buttons m.BUTTON5) 8 (by decide) h8
  have h10 := orButton_high _ (asserted s.Buttons m.BUTTON6) 9 (by decide) h9
  have h11 := orButton_high _ (asserted s.GPIOD m.GPIO1) 10 (by decide) h10
  have h12 := orButton_high _ (asserted s.GPIOD m.GPIO2) 11 (by decide) h11
  have h13 := orButton_high _ (asserted s.GPIOB m.GPIO3) 12 (by decide) h12
  have h14 := orButton_high _ (asserted s.GPIOB m.GPIO4) 13 (by decide) h13
  have h15 := orButton_high _ (asserted s.GPIOB m.GPIO5) 14 (by decide) h14
  rw [orButton_testBit _ _ 15 k (by decide) h15, orButton_testBit _ _ 14 k (by decide) h14,
    orButton_testBit _ _ 13 k (by decide) h13, orButton_testBit _ _ 12 k (by decide) h12,
    orButton_testBit _ _ 11 k (by decide) h11, orButton_testBit _ _ 10 k (by decide) h10,
    orButton_testBit _ _ 9 k (by decide) h9, orButton_testBit _ _ 8 k (by decide) h8,
    orButton_testBit _ _ 7 k (by decide) h7, orButton_testBit _ _ 6 k (by decide) h6,
    orButton_testBit _ _ 5 k (by decide) h5, orButton_testBit _ _ 4 k (by decide) h4,
    orButton_testBit _ _ 3 k (by decide) h3, orButton_testBit _ _ 2 k (by decide) h2,
    orButton_testBit _ _ 1 k (by decide) h1, orButton_testBit _ _ 0 k (by decide) h0,
    hB, Nat.zero_testBit]
  rcases k with _|_|_|_|_|_|_|_|_|_|_|_|_|_|_|_|k <;> simp [buttonInput]

end Joystick

/-! ## Theorems: keyboard/mouse profile -/

namespace KeyboardMouse

theorem keyboardScan_eq_foldl (m : Masks) (k : ScanCodes) (s : InputSnapshot)
    (buf : USB_KeyboardReport_Data_t) :
    keyboardScan m k s buf
      = (keyTable m k s).foldl (fun st e => putKeyCode st e.1 e.2)
          { report := buf, UsedKeyCodes := 0, pastEnd := [] } := rfl

theorem slotsAfter_snoc_lt (w : List Nat) (c : Nat) (h : w.length < 6) :
    (slotsAfter w).set w.length c = slotsAfter (w ++ [c]) := by
  unfold slotsAfter
  rcases w with _|⟨a0, _|⟨a1, _|⟨a2, _|⟨a3, _|⟨a4, _|⟨a5, w⟩⟩⟩⟩⟩⟩
  · rfl
  · rfl
  · rfl
  · rfl
  · rfl
  · rfl
  · simp at h
    omega

theorem slotsAfter_snoc_ge (w : List Nat) (c : Nat) (h : 6 ≤ w.length) :
    slotsAfter (w ++ [c]) = slotsAfter w := by
  unfold slotsAfter
  rw [List.take_append_of_le_length h, List.length_append]
  have h1 : 6 - (w.length + [c].length) = 0 := by simp; omega
  have h2 : 6 - w.length = 0 := by omega
  rw [h1, h2]

theorem putKeyCode_scanAfter (w : List Nat) (c : Nat) (h : w.length < 255) :
    putKeyCode (scanAfter w) true c = scanAfter (w ++ [c % 256]) := by
  unfold putKeyCode scanAfter
  simp only [if_true]
  by_cases h6 : w.length < 6
  · simp only [h6, if_true]
    rw [slotsAfter_snoc_lt w _ h6, List.length_append, List.length_singleton,
      Nat.mod_eq_of_lt (show w.length + 1 < 256 by omega)]
    have e1 : List.drop 6 w.enum = [] := by
      apply List.drop_eq_nil_of_le; simp; omega
    have e2 : List.drop 6 (w ++ [c % 256]).enum = [] := by
      apply List.drop_eq_nil_of_le; simp; omega
    rw [e1, e2]
  · simp only [h6, if_false]
    rw [slotsAfter_snoc_ge w _ (by omega), List.length_append, List.length_singleton,
      Nat.mod_eq_of_lt (show w.length + 1 < 256 by omega)]
    have e : (w ++ [c % 256]).enum = w.enum ++ [(w.length, c % 256)] := by
      simp [List.enum, List.enumFrom_append]
    rw [e, List.drop_append_of_le_length (by simp; omega)]

theorem foldl_putKeyCode_scanAfter (t : List (Bool × Nat)) (w : List Nat)
    (h : w.length + t.length < 256) :
    t.foldl (fun st e => putKeyCode st e.1 e.2) (scanAfter w)
      = scanAfter (w ++ pressedOf t) := by
  induction t generalizing w with
  | nil => simp [pressedOf]
  | cons e t ih =>
    obtain ⟨b, c⟩ := e
    simp only [List.length_cons] at h
    cases b
    · have hp : pressedOf ((false, c) :: t) = pressedOf t := by simp [pressedOf]
      rw [hp, List.foldl_cons]
      have : putKeyCode (scanAfter w) false c = scanAfter w := rfl
      rw [this]
      exact ih w (by omega)
    · have hp : pressedOf ((true, c) :: t) = (c % 256) :: pressedOf t := by simp [pressedOf]
      rw [hp, List.foldl_cons]
      show List.foldl _ (putKeyCode (scanAfter w) true c) t = _
      rw [putKeyCode_scanAfter w c (by omega), ih (w ++ [c % 256]) (by simp; omega)]
      simp

/-- The whole scan on a zeroed report: the cursor ends at the number of
asserted key inputs, the six slots hold the first six of their codes, and the
codes from the seventh on were stored past the array. -/
theorem keyboardScan_zero (m : Masks) (k : ScanCodes) (s : InputSnapshot) :
    keyboardScan m k s zeroKeyboardReport = scanAfter (pressedKeyCodes m k s) := by
  rw [keyboardScan_eq_foldl]
  have h := foldl_putKeyCode_scanAfter (keyTable m k s) [] (by simp [keyTable])
  simpa [scanAfter, slotsAfter, zeroKeyboardReport, pressedKeyCodes] using h

/-- Whenever more than six key inputs are asserted, the cursor passes 6 and
the first store outside the array is the seventh code, at `KeyCode[6]`. -/
theorem keyboardScan_overflow (m : Masks) (k : ScanCodes) (s : InputSnapshot)
    (h : 6 < (pressedKeyCodes m k s).length) :
    (keyboardScan m k s zeroKeyboardReport).UsedKeyCodes = (pressedKeyCodes m k s).length
    ∧ (keyboardScan m k s zeroKeyboardReport).report.KeyCode = (pressedKeyCodes m k s).take 6
    ∧ (keyboardScan m k s zeroKeyboardReport).pastEnd.head?
        = some (6, (pressedKeyCodes m k s).get ⟨6, h⟩) := by
  rw [keyboardScan_zero]
  refine ⟨rfl, ?_, ?_⟩
  · simp only [scanAfter, slotsAfter]
    have : 6 - (pressedKeyCodes m k s).length = 0 := by omega
    rw [this]
    simp
  · simp only [scanAfter]
    rw [List.head?_drop, List.enum, List.getElem?_enumFrom, List.getElem?_eq_getElem h]
    simp

theorem pressedKeyCodes_length (m : Masks) (k : ScanCodes) (s : InputSnapshot) :
    (pressedKeyCodes m k s).length = assertedKeyCount m k s := by
  simp [pressedKeyCodes, pressedOf, assertedKeyCount, List.countP_eq_length_filter]

/-- C3: when at most six key inputs are asserted, the keyboard branch run on a
zeroed buffer leaves in `KeyCode` the key codes of the asserted inputs in scan
order followed by zeros up to the sixth slot, so the number of codes equals the
number of asserted inputs; nothing is stored outside the six slots. -/
theorem keyboard_at_most_six (m : Masks) (k : ScanCodes) (s : InputSnapshot)
    (h : assertedKeyCount m k s ≤ 6) :
    (CALLBACK_HID_Device_CreateHIDReport m k s .Keyboard_HID_Interface
        zeroKeyboardReport).ReportData.KeyCode
      = pressedKeyCodes m k s ++ List.replicate (6 - assertedKeyCount m k s) 0
    ∧ (pressedKeyCodes m k s).length = assertedKeyCount m k s
    ∧ (CALLBACK_HID_Device_CreateHIDReport m k s .Keyboard_HID_Interface
        zeroKeyboardReport).pastEnd = [] := by
  have hl := pressedKeyCodes_length m k s
  simp only [CALLBACK_HID_Device_CreateHIDReport, createKeyboardReport, keyboardScan_zero,
    scanAfter, slotsAfter]
  refine ⟨?_, hl, ?_⟩
  · rw [List.take_of_length_le (by omega), hl]
  · apply List.drop_eq_nil_of_le
    simp
    omega

/-- C3 at ENTER, BUTTON1 and BUTTON3 asserted: three codes, three zeros. -/
theorem keyboard_at_most_six_witness :
    assertedKeyCount sampleMasks usageCodes { idleSnapshot with Util := 4, Buttons := 5 } ≤ 6
    ∧ (CALLBACK_HID_Device_CreateHIDReport sampleMasks usageCodes
        { idleSnapshot with Util := 4, Buttons := 5 } .Keyboard_HID_Interface
        zeroKeyboardReport).ReportData.KeyCode = [0x28, 0xE0, 0x04, 0, 0, 0] := by
  refine ⟨by decide, ?_⟩
  have h := (keyboard_at_most_six sampleMasks usageCodes
    { idleSnapshot with Util := 4, Buttons := 5 } (by decide)).1
  rw [h]
  decide

/-- C4: with ENTER, ESC and BUTTON1..BUTTON5 asserted (seven key inputs) the
keyboard branch makes the store `KeyCode[6] = HID_KEYBOARD_SC_S`, at an index
outside the six slots, and the append cursor ends at 7: it is not capped. -/
theorem keyboard_seven_keys_store_past_array :
    (keyboardScan sampleMasks usageCodes { idleSnapshot with Util := 12, Buttons := 31 }
        zeroKeyboardReport).UsedKeyCodes = 7
    ∧ (CALLBACK_HID_Device_CreateHIDReport sampleMasks usageCodes
        { idleSnapshot with Util := 12, Buttons := 31 } .Keyboard_HID_Interface
        zeroKeyboardReport).pastEnd = [(6, 0x16)] := by
  decide

/-- C5: with ENTER, ESC and BUTTON1..BUTTON6 asserted (eight key inputs) the
six slots hold the first six codes, and the seventh and eighth codes are not
dropped: they are stored at `KeyCode[6]` and `KeyCode[7]`, past the array. -/
theorem keyboard_eight_keys_not_dropped :
    (CALLBACK_HID_Device_CreateHIDReport sampleMasks usageCodes
        { idleSnapshot with Util := 12, Buttons := 63 } .Keyboard_HID_Interface
        zeroKeyboardReport).ReportData.KeyCode = [0x28, 0x29, 0xE0, 0xE2, 0x04, 0x1D]
    ∧ (CALLBACK_HID_Device_CreateHIDReport sampleMasks usageCodes
        { idleSnapshot with Util := 12, Buttons := 63 } .Keyboard_HID_Interface
        zeroKeyboardReport).pastEnd = [(6, 0x16), (7, 0x1B)] := by
  decide

/-- C6: on a zeroed buffer the mouse branch sets Y to -1 when up is asserted
(down asserted or not), to 1 when only down is, else leaves 0; X likewise with
left and right; bit 0 of `Button` is set exactly when START is asserted, bit 1
exactly when SELECT is, and every other bit is clear. -/
theorem mouse_report (m : Masks) (k : ScanCodes) (s : InputSnapshot) :
    (CALLBACK_HID_Device_CreateHIDReport m k s .Mouse_HID_Interface
        zeroMouseReport).ReportData.Y
      = (if asserted s.Joy m.JOY_UP then -1
         else if asserted s.Joy m.JOY_DOWN then 1 else 0)
    ∧ (CALLBACK_HID_Device_CreateHIDReport m k s .Mouse_HID_Interface
        zeroMouseReport).ReportData.X
      = (if asserted s.Joy m.JOY_LEFT then -1
         else if asserted s.Joy m.JOY_RIGHT then 1 else 0)
    ∧ ∀ j : Nat, (CALLBACK_HID_Device_CreateHIDReport m k s .Mouse_HID_Interface
        zeroMouseReport).ReportData.Button.testBit j
      = ((decide (j = 0) && asserted s.Util m.UTIL_START)
          || (decide (j = 1) && asserted s.Util m.UTIL_SELECT)) := by
  simp only [CALLBACK_HID_Device_CreateHIDReport, createMouseReport, zeroMouseReport]
  refine ⟨?_, ?_, ?_⟩
  · cases asserted s.Joy m.JOY_UP <;> cases asserted s.Joy m.JOY_DOWN <;>
      cases asserted s.Joy m.JOY_LEFT <;> cases asserted s.Joy m.JOY_RIGHT <;>
      cases asserted s.Util m.UTIL_START <;> cases asserted s.Util m.UTIL_SELECT <;> rfl
  · cases asserted s.Joy m.JOY_UP <;> cases asserted s.Joy m.JOY_DOWN <;>
      cases asserted s.Joy m.JOY_LEFT <;> cases asserted s.Joy m.JOY_RIGHT <;>
      cases asserted s.Util m.UTIL_START <;> cases asserted s.Util m.UTIL_SELECT <;> rfl
  · intro j
    cases asserted s.Joy m.JOY_UP <;> cases asserted s.Joy m.JOY_DOWN <;>
      cases asserted s.Joy m.JOY_LEFT <;> cases asserted s.Joy m.JOY_RIGHT <;>
      cases asserted s.Util m.UTIL_START <;> cases asserted s.Util m.UTIL_SELECT <;>
      rcases j with _|_|j <;> simp [Nat.testBit_succ]

/-- C9: for the keyboard interface the callback calls `LEDs_SetAllLEDs` with
`LEDS_LED1` when at least one of the NumLock, CapsLock, ScrollLock bits of the
LED report byte is set and with `LEDS_NO_LEDS` when none is; so two bytes that
both have, or both lack, such a bit give the same mask whatever their other
bits. The board constants are taken as `LEDS_NO_LEDS = 0` and `LEDS_LED1` a
byte. -/
theorem keyboard_led_feedback (c : LEDConsts) (h0 : c.LEDS_NO_LEDS = 0)
    (h1 : c.LEDS_LED1 < 256) (b : Nat) :
    CALLBACK_HID_Device_ProcessHIDReport c .Keyboard_HID_Interface b
      = some (if anyLockBit c b then c.LEDS_LED1 else c.LEDS_NO_LEDS)
    ∧ ∀ b2 : Nat, anyLockBit c b = anyLockBit c b2 →
        CALLBACK_HID_Device_ProcessHIDReport c .Keyboard_HID_Interface b
          = CALLBACK_HID_Device_ProcessHIDReport c .Keyboard_HID_Interface b2 := by
  have key : ∀ x : Nat, CALLBACK_HID_Device_ProcessHIDReport c .Keyboard_HID_Interface x
      = some (if anyLockBit c x then c.LEDS_LED1 else c.LEDS_NO_LEDS) := by
    intro x
    have e0 : c.LEDS_LED1 % 256 = c.LEDS_LED1 := Nat.mod_eq_of_lt h1
    simp only [CALLBACK_HID_Device_ProcessHIDReport, anyLockBit, h0, Nat.zero_mod]
    cases asserted x c.HID_KEYBOARD_LED_NUMLOCK <;>
      cases asserted x c.HID_KEYBOARD_LED_CAPSLOCK <;>
      cases asserted x c.HID_KEYBOARD_LED_SCROLLLOCK <;>
      simp [e0, Nat.zero_or, Nat.or_self]
  refine ⟨key b, ?_⟩
  intro b2 hb
  rw [key b, key b2, hb]

/-- C9 at the bytes 0x01 (NumLock) and 0xF6 (CapsLock, ScrollLock and other
bits): both give the mask `LEDS_LED1`. -/
theorem keyboard_led_feedback_witness :
    sampleLEDs.LEDS_NO_LEDS = 0 ∧ sampleLEDs.LEDS_LED1 < 256
    ∧ CALLBACK_HID_Device_ProcessHIDReport sampleLEDs .Keyboard_HID_Interface 0x01 = some 16
    ∧ CALLBACK_HID_Device_ProcessHIDReport sampleLEDs .Keyboard_HID_Interface 0x01
        = CALLBACK_HID_Device_ProcessHIDReport sampleLEDs .Keyboard_HID_Interface 0xF6 := by
  have h := keyboard_led_feedback sampleLEDs (by decide) (by decide) 0x01
  refine ⟨by decide, by decide, ?_, h.2 0xF6 (by decide)⟩
  rw [h.1]
  decide

/-- C10: the mouse branch builds the same report from two snapshots that agree
on the directional group and on the START and SELECT bits, and the keyboard
branch builds the same report from two snapshots that agree on the ENTER and
ESC bits, the face buttons and the three GPIO banks; the buffer on entry is
the same in both runs. -/
theorem keyboard_mouse_disjoint (m : Masks) (k : ScanCodes) (s t : InputSnapshot)
    (bm : USB_MouseReport_Data_t) (bk : USB_KeyboardReport_Data_t) :
    (agreeOnMouseInputs m s t →
      (CALLBACK_HID_Device_CreateHIDReport m k s .Mouse_HID_Interface bm).ReportData
        = (CALLBACK_HID_Device_CreateHIDReport m k t .Mouse_HID_Interface bm).ReportData)
    ∧ (agreeOnKeyboardInputs m s t →
      (CALLBACK_HID_Device_CreateHIDReport m k s .Keyboard_HID_Interface bk).ReportData
        = (CALLBACK_HID_Device_CreateHIDReport m k t .Keyboard_HID_Interface bk).ReportData) := by
  constructor
  · rintro ⟨hJ, hS, hL⟩
    simp only [CALLBACK_HID_Device_CreateHIDReport, createMouseReport, hJ, hS, hL]
  · rintro ⟨hE, hX, hB, hD, hGB, hC⟩
    simp only [CALLBACK_HID_Device_CreateHIDReport, createKeyboardReport, keyboardScan,
      hE, hX, hB, hD, hGB, hC]

/-- C10 at two snapshots that differ in every keyboard input but agree on the
mouse inputs, and two that differ in every mouse input but agree on the
keyboard inputs. -/
theorem keyboard_mouse_disjoint_witness :
    (agreeOnMouseInputs sampleMasks
        { Joy := 5, Util := 1, Buttons := 0, GPIOD := 0, GPIOB := 0, GPIOC := 0 }
        { Joy := 5, Util := 13, Buttons := 63, GPIOD := 3, GPIOB := 7, GPIOC := 1 }
      ∧ (CALLBACK_HID_Device_CreateHIDReport sampleMasks usageCodes
          { Joy := 5, Util := 1, Buttons := 0, GPIOD := 0, GPIOB := 0, GPIOC := 0 }
          .Mouse_HID_Interface zeroMouseReport).ReportData
        = (CALLBACK_HID_Device_CreateHIDReport sampleMasks usageCodes
          { Joy := 5, Util := 13, Buttons := 63, GPIOD := 3, GPIOB := 7, GPIOC := 1 }
          .Mouse_HID_Interface zeroMouseReport).ReportData)
    ∧ (agreeOnKeyboardInputs sampleMasks
        { Joy := 0, Util := 4, Buttons := 9, GPIOD := 1, GPIOB := 2, GPIOC := 1 }
        { Joy := 15, Util := 7, Buttons := 9, GPIOD := 1, GPIOB := 2, GPIOC := 1 }
      ∧ (CALLBACK_HID_Device_CreateHIDReport sampleMasks usageCodes
          { Joy := 0, Util := 4, Buttons := 9, GPIOD := 1, GPIOB := 2, GPIOC := 1 }
          .Keyboard_HID_Interface zeroKeyboardReport).ReportData
        = (CALLBACK_HID_Device_CreateHIDReport sampleMasks usageCodes
          { Joy := 15, Util := 7, Buttons := 9, GPIOD := 1, GPIOB := 2, GPIOC := 1 }
          .Keyboard_HID_Interface zeroKeyboardReport).ReportData) := by
  have hm : agreeOnMouseInputs sampleMasks
      { Joy := 5, Util := 1, Buttons := 0, GPIOD := 0, GPIOB := 0, GPIOC := 0 }
      { Joy := 5, Util := 13, Buttons := 63, GPIOD := 3, GPIOB := 7, GPIOC := 1 } := by
    decide
  have hk : agreeOnKeyboardInputs sampleMasks
      { Joy := 0, Util := 4, Buttons := 9, GPIOD := 1, GPIOB := 2, GPIOC := 1 }
      { Joy := 15, Util := 7, Buttons := 9, GPIOD := 1, GPIOB := 2, GPIOC := 1 } := by
    decide
  exact ⟨⟨hm, (keyboard_mouse_disjoint sampleMasks usageCodes _ _ zeroMouseReport
      zeroKeyboardReport).1 hm⟩,
    ⟨hk, (keyboard_mouse_disjoint sampleMasks usageCodes _ _ zeroMouseReport
      zeroKeyboardReport).2 hk⟩⟩

end KeyboardMouse

/-! ## Theorems: force-send policy and change tracking -/

/-- C7: whatever the snapshot and the buffer content, the joystick callback
returns false, the keyboard branch returns false and the mouse branch returns
true. -/
theorem force_send_policy (m : Masks) (k : KeyboardMouse.ScanCodes) (s : InputSnapshot)
    (bj : Joystick.USB_JoystickReport_Data_t) (bk : KeyboardMouse.USB_KeyboardReport_Data_t)
    (bm : KeyboardMouse.USB_MouseReport_Data_t) :
    (Joystick.CALLBACK_HID_Device_CreateHIDReport m s bj).ForceSend = false
    ∧ (KeyboardMouse.CALLBACK_HID_Device_CreateHIDReport m k s
        .Keyboard_HID_Interface bk).ForceSend = false
    ∧ (KeyboardMouse.CALLBACK_HID_Device_CreateHIDReport m k s
        .Mouse_HID_Interface bm).ForceSend = true :=
  ⟨rfl, rfl, rfl⟩

namespace ChangeTracker

theorem changeTracker_fst (f : Bool) (r c : List Nat) :
    (changeTracker f r c).1 = (f || decide (r ≠ c)) := by
  unfold changeTracker
  cases f
  · by_cases h : r = c <;> simp [h]
  · simp

theorem changeTracker_snd (f : Bool) (r c : List Nat) :
    (changeTracker f r c).2 = r := by
  unfold changeTracker
  cases f
  · by_cases h : r = c <;> simp [h]
  · simp

/-- C8, as stated, fails: two consecutive polls of the idle joystick build the
same all-zero report, which equals the zero-initialised cache, and no
transmission results, not one. -/
theorem joystick_idle_polls_transmit_nothing :
    builtJoystickBytes sampleMasks idleSnapshot = [0, 0, 0, 0]
    ∧ transmissions (pollJoystick sampleMasks) [idleSnapshot, idleSnapshot]
        (List.replicate Joystick.sizeofReport 0) = 0
    ∧ transmissions (pollJoystick sampleMasks) [idleSnapshot, idleSnapshot]
        (List.replicate Joystick.sizeofReport 0) ≠ 1 := by
  decide

/-- C8 (amended): the tracker transmits iff the force-send flag is true or the
report differs from the device's cached previous report; over two consecutive
joystick polls the first transmits iff its report differs from the cache it
starts with and the second iff its report differs from the first report, so
identical reports give one transmission (none if they equal the starting
cache) and differing reports two (one if the first equals the starting
cache); every mouse poll transmits. -/
theorem change_tracking (m : Masks) (k : KeyboardMouse.ScanCodes) :
    (∀ (f : Bool) (r c : List Nat), (changeTracker f r c).1 = (f || decide (r ≠ c)))
    ∧ (∀ (s1 s2 : InputSnapshot) (cache : List Nat),
        transmissions (pollJoystick m) [s1, s2] cache
          = (if builtJoystickBytes m s1 ≠ cache then 1 else 0)
            + (if builtJoystickBytes m s2 ≠ builtJoystickBytes m s1 then 1 else 0))
    ∧ (∀ (snaps : List InputSnapshot) (cache : List Nat),
        transmissions (pollMouse m k) snaps cache = snaps.length) := by
  refine ⟨changeTracker_fst, ?_, ?_⟩
  · intro s1 s2 cache
    have hf : ∀ s, (Joystick.CALLBACK_HID_Device_CreateHIDReport m s
        Joystick.zeroReport).ForceSend = false := fun _ => rfl
    simp only [transmissions, pollJoystick, changeTracker_fst, changeTracker_snd, hf,
      builtJoystickBytes, Bool.false_or, decide_eq_true_eq, Nat.add_zero]
  · intro snaps
    induction snaps with
    | nil => intro cache; rfl
    | cons s rest ih =>
      intro cache
      have hf : (pollMouse m k s cache).1 = true := by
        simp only [pollMouse, changeTracker_fst]
        rfl
      simp only [transmissions, hf, if_true, ih, List.length_cons]
      omega

end ChangeTracker

/-! ## Theorems: examples, sizes, frame conditions and events -/

theorem asserted_zero (mask : Nat) : asserted 0 mask = false := by
  simp [asserted]

/-- C11: with up and left asserted and the utility, button and GPIO groups all
zero, the joystick callback on a zeroed buffer builds {X = -100, Y = -100,
Buttons = 0}, and the mouse branch on a zeroed buffer builds {X = -1, Y = -1,
Button = 0} and returns true. -/
theorem end_to_end_up_left (m : Masks) (k : KeyboardMouse.ScanCodes) (s : InputSnapshot)
    (hu : asserted s.Joy m.JOY_UP = true) (hl : asserted s.Joy m.JOY_LEFT = true)
    (hU : s.Util = 0) (hB : s.Buttons = 0)
    (hD : s.GPIOD = 0) (hGB : s.GPIOB = 0) (hC : s.GPIOC = 0) :
    (Joystick.CALLBACK_HID_Device_CreateHIDReport m s Joystick.zeroReport).ReportData
      = { X := -100, Y := -100, Buttons := 0 }
    ∧ (KeyboardMouse.CALLBACK_HID_Device_CreateHIDReport m k s .Mouse_HID_Interface
        KeyboardMouse.zeroMouseReport).ReportData = { Button := 0, X := -1, Y := -1 }
    ∧ (KeyboardMouse.CALLBACK_HID_Device_CreateHIDReport m k s .Mouse_HID_Interface
        KeyboardMouse.zeroMouseReport).ForceSend = true := by
  refine ⟨?_, ?_, rfl⟩
  · simp [Joystick.CALLBACK_HID_Device_CreateHIDReport, Joystick.orButton,
      Joystick.zeroReport, hu, hl, hU, hB, hD, hGB, hC, asserted_zero]
  · simp [KeyboardMouse.CALLBACK_HID_Device_CreateHIDReport, KeyboardMouse.createMouseReport,
      KeyboardMouse.zeroMouseReport, hu, hl, hU, asserted_zero]

/-- C11 at the sample masks, directional status `JOY_UP | JOY_LEFT`. -/
theorem end_to_end_up_left_witness :
    asserted 5 sampleMasks.JOY_UP = true ∧ asserted 5 sampleMasks.JOY_LEFT = true
    ∧ (Joystick.CALLBACK_HID_Device_CreateHIDReport sampleMasks
        { idleSnapshot with Joy := 5 } Joystick.zeroReport).ReportData
      = { X := -100, Y := -100, Buttons := 0 }
    ∧ (KeyboardMouse.CALLBACK_HID_Device_CreateHIDReport sampleMasks usageCodes
        { idleSnapshot with Joy := 5 } .Mouse_HID_Interface
        KeyboardMouse.zeroMouseReport).ReportData = { Button := 0, X := -1, Y := -1 }
    ∧ (KeyboardMouse.CALLBACK_HID_Device_CreateHIDReport sampleMasks usageCodes
        { idleSnapshot with Joy := 5 } .Mouse_HID_Interface
        KeyboardMouse.zeroMouseReport).ForceSend = true :=
  ⟨by decide, by decide,
    end_to_end_up_left sampleMasks usageCodes { idleSnapshot with Joy := 5 }
      (by decide) (by decide) rfl rfl rfl rfl rfl⟩

namespace KeyboardMouse

theorem putKeyCode_Modifier (st : KeyboardScan) (c : Bool) (code : Nat) :
    (putKeyCode st c code).report.Modifier = st.report.Modifier := by
  unfold putKeyCode
  cases c
  · rfl
  · by_cases h : st.UsedKeyCodes < 6 <;> simp [h]

theorem putKeyCode_Reserved (st : KeyboardScan) (c : Bool) (code : Nat) :
    (putKeyCode st c code).report.Reserved = st.report.Reserved := by
  unfold putKeyCode
  cases c
  · rfl
  · by_cases h : st.UsedKeyCodes < 6 <;> simp [h]

/-- C13: whatever the snapshot and the buffer content, the keyboard branch
leaves the `Modifier` byte and the `Reserved` byte as they were on entry; on a
zeroed buffer the `Modifier` byte of the built report is therefore zero. -/
theorem keyboard_modifier_unchanged (m : Masks) (k : ScanCodes) (s : InputSnapshot)
    (buf : USB_KeyboardReport_Data_t) :
    (CALLBACK_HID_Device_CreateHIDReport m k s .Keyboard_HID_Interface buf).ReportData.Modifier
      = buf.Modifier
    ∧ (CALLBACK_HID_Device_CreateHIDReport m k s .Keyboard_HID_Interface buf).ReportData.Reserved
      = buf.Reserved
    ∧ (CALLBACK_HID_Device_CreateHIDReport m k s .Keyboard_HID_Interface
        zeroKeyboardReport).ReportData.Modifier = 0 := by
  refine ⟨?_, ?_, ?_⟩
  · simp only [CALLBACK_HID_Device_CreateHIDReport, createKeyboardReport, keyboardScan,
      putKeyCode_Modifier]
  · simp only [CALLBACK_HID_Device_CreateHIDReport, createKeyboardReport, keyboardScan,
      putKeyCode_Reserved]
  · simp only [CALLBACK_HID_Device_CreateHIDReport, createKeyboardReport, keyboardScan,
      putKeyCode_Modifier]
    rfl

end KeyboardMouse

/-- C14: whatever the snapshot and the buffer content, the joystick callback
sets the report size to 4, the keyboard branch to 8 and the mouse branch to 3,
the sizes of the three report layouts. -/
theorem reported_size (m : Masks) (k : KeyboardMouse.ScanCodes) (s : InputSnapshot)
    (bj : Joystick.USB_JoystickReport_Data_t) (bk : KeyboardMouse.USB_KeyboardReport_Data_t)
    (bm : KeyboardMouse.USB_MouseReport_Data_t) :
    (Joystick.CALLBACK_HID_Device_CreateHIDReport m s bj).ReportSize = 4
    ∧ (KeyboardMouse.CALLBACK_HID_Device_CreateHIDReport m k s
        .Keyboard_HID_Interface bk).ReportSize = 8
    ∧ (KeyboardMouse.CALLBACK_HID_Device_CreateHIDReport m k s
        .Mouse_HID_Interface bm).ReportSize = 3 :=
  ⟨rfl, rfl, rfl⟩

theorem configuration_changed_iff (l : LEDMasks)
    (hne : l.LEDMASK_USB_READY ≠ l.LEDMASK_USB_ERROR) (joystickOK keyboardOK mouseOK : Bool) :
    (Joystick.EVENT_USB_Device_ConfigurationChanged l joystickOK
        = some l.LEDMASK_USB_READY ↔ joystickOK = true)
    ∧ (Joystick.EVENT_USB_Device_ConfigurationChanged l joystickOK
        = some l.LEDMASK_USB_ERROR ↔ joystickOK = false)
    ∧ (KeyboardMouse.EVENT_USB_Device_ConfigurationChanged l keyboardOK mouseOK
        = some l.LEDMASK_USB_READY ↔ (keyboardOK = true ∧ mouseOK = true))
    ∧ (KeyboardMouse.EVENT_USB_Device_ConfigurationChanged l keyboardOK mouseOK
        = some l.LEDMASK_USB_ERROR ↔ ¬ (keyboardOK = true ∧ mouseOK = true)) := by
  have hne2 : l.LEDMASK_USB_ERROR ≠ l.LEDMASK_USB_READY := fun h => hne h.symm
  refine ⟨?_, ?_, ?_, ?_⟩
  · cases joystickOK <;> simp [Joystick.EVENT_USB_Device_ConfigurationChanged, hne, hne2]
  · cases joystickOK <;> simp [Joystick.EVENT_USB_Device_ConfigurationChanged, hne, hne2]
  · cases keyboardOK <;> cases mouseOK <;>
      simp [KeyboardMouse.EVENT_USB_Device_ConfigurationChanged, hne, hne2]
  · cases keyboardOK <;> cases mouseOK <;>
      simp [KeyboardMouse.EVENT_USB_Device_ConfigurationChanged, hne, hne2]

/-- With the sample patterns, the keyboard endpoint configured and the mouse
endpoint failing: the ERROR pattern is set. -/
theorem configuration_changed_iff_sample :
    KeyboardMouse.EVENT_USB_Device_ConfigurationChanged sampleLEDMasks true false
        = some sampleLEDMasks.LEDMASK_USB_ERROR :=
  (configuration_changed_iff sampleLEDMasks (by decide) true true false).2.2.2.2 (by decide)

/-- Patterns that are disjoint are pairwise distinct. -/
theorem pairwiseDistinct_of_disjointPatterns (l : LEDMasks) (h : l.disjointPatterns) :
    l.pairwiseDistinct := by
  unfold LEDMasks.disjointPatterns at h
  unfold LEDMasks.pairwiseDistinct
  obtain ⟨hp, h0⟩ := h
  simp only [List.pairwise_cons, List.mem_cons, List.mem_singleton, List.not_mem_nil,
    forall_eq_or_imp, forall_eq, or_false] at hp
  simp only [List.mem_cons, List.mem_singleton, List.not_mem_nil, not_or, or_false] at h0
  obtain ⟨⟨h12, h13, h14⟩, ⟨h23, h24⟩, h34, -⟩ := hp
  obtain ⟨n1, n2, n3, n4⟩ := h0
  have key : ∀ a b : Nat, a &&& b = 0 → 0 ≠ a → a ≠ b := by
    intro a b hab ha e
    rw [← e, Nat.and_self] at hab
    exact ha hab.symm
  simp only [List.nodup_cons, List.mem_cons, List.mem_singleton, List.not_mem_nil,
    not_or, List.nodup_nil, or_false, not_false_eq_true, and_true]
  exact ⟨⟨key _ _ h12 n1, key _ _ h13 n1, key _ _ h14 n1⟩,
    ⟨key _ _ h23 n2, key _ _ h24 n2⟩, key _ _ h34 n3⟩

/-- C18: for the mouse interface of the keyboard/mouse profile, and in the
joystick profile, the report callback makes no `LEDs_SetAllLEDs` call, so the
indicator state after it is the state before; in the keyboard/mouse profile
the call is made exactly when the interface is the keyboard interface. -/
theorem only_keyboard_reacts (c : KeyboardMouse.LEDConsts) (b : Nat) (data : List Nat)
    (leds : Nat) (iface : KeyboardMouse.HIDInterface) :
    KeyboardMouse.CALLBACK_HID_Device_ProcessHIDReport c .Mouse_HID_Interface b = none
    ∧ ledStateAfter leds
        (KeyboardMouse.CALLBACK_HID_Device_ProcessHIDReport c .Mouse_HID_Interface b) = leds
    ∧ Joystick.CALLBACK_HID_Device_ProcessHIDReport data = none
    ∧ ledStateAfter leds (Joystick.CALLBACK_HID_Device_ProcessHIDReport data) = leds
    ∧ ((KeyboardMouse.CALLBACK_HID_Device_ProcessHIDReport c iface b).isSome = true
        ↔ iface = .Keyboard_HID_Interface) := by
  refine ⟨rfl, rfl, rfl, rfl, ?_⟩
  cases iface <;> simp [KeyboardMouse.CALLBACK_HID_Device_ProcessHIDReport]

/-! ## Theorems: the joystick table and the buffer on entry -/

namespace Joystick

theorem orButton_testBit_lt (r : USB_JoystickReport_Data_t) (c : Bool) (k j : Nat)
    (hj : j < 16) :
    (orButton r c k).Buttons.testBit j = (r.Buttons.testBit j || (c && decide (k = j))) := by
  unfold orButton
  cases c
  · simp
  · simp only [if_true, Bool.true_and]
    rw [show (65536 : Nat) = 2 ^ 16 from rfl, Nat.testBit_mod_two_pow, Nat.testBit_or,
      Nat.shiftLeft_eq, Nat.one_mul, Nat.testBit_two_pow]
    simp [hj]

theorem orButton_lt (r : USB_JoystickReport_Data_t) (c : Bool) (k : Nat)
    (h : r.Buttons < 65536) : (orButton r c k).Buttons < 65536 := by
  unfold orButton
  cases c
  · simpa using h
  · simp only [if_true]
    exact Nat.mod_lt _ (by decide)

/-- Bit `j` of the `Buttons` field after the callback, for any buffer on
entry: the bit the buffer had, or the state of the input mapped to `j`. -/
theorem buttons_testBit (m : Masks) (s : InputSnapshot) (buf : USB_JoystickReport_Data_t)
    (j : Nat) (hj : j < 16) :
    (CALLBACK_HID_Device_CreateHIDReport m s buf).ReportData.Buttons.testBit j
      = (buf.Buttons.testBit j || buttonInput m s j) := by
  simp only [CALLBACK_HID_Device_CreateHIDReport, orButton_testBit_lt _ _ _ _ hj]
  cases asserted s.Joy m.JOY_UP <;> cases asserted s.Joy m.JOY_DOWN <;>
    cases asserted s.Joy m.JOY_LEFT <;> cases asserted s.Joy m.JOY_RIGHT <;>
    (interval_cases j <;> simp [buttonInput])

theorem buttons_lt (m : Masks) (s : InputSnapshot) :
    (CALLBACK_HID_Device_CreateHIDReport m s zeroReport).ReportData.Buttons < 65536 := by
  simp only [CALLBACK_HID_Device_CreateHIDReport]
  repeat apply orButton_lt
  cases asserted s.Joy m.JOY_UP <;> cases asserted s.Joy m.JOY_DOWN <;>
    cases asserted s.Joy m.JOY_LEFT <;> cases asserted s.Joy m.JOY_RIGHT <;>
    simp [zeroReport]

/-- C12: the sixteen entries of the joystick table carry the bit indices
0, 1, ..., 15, each once, so on a zeroed buffer the number of set bits of
`Buttons` (a 16-bit value) equals the number of asserted utility, button and
GPIO inputs. -/
theorem joystick_table_bijection (m : Masks) (s : InputSnapshot) :
    (buttonTable m s).map Prod.snd = List.range 16
    ∧ ((buttonTable m s).map Prod.snd).Nodup
    ∧ (CALLBACK_HID_Device_CreateHIDReport m s zeroReport).ReportData.Buttons < 65536
    ∧ popCount16 (CALLBACK_HID_Device_CreateHIDReport m s zeroReport).ReportData.Buttons
        = (buttonTable m s).countP (fun e => e.1) := by
  have hmap : (buttonTable m s).map Prod.snd = List.range 16 := rfl
  refine ⟨hmap, ?_, buttons_lt m s, ?_⟩
  · rw [hmap]; exact List.nodup_range 16
  · unfold popCount16
    have h1 : (List.range 16).countP
          (fun j => (CALLBACK_HID_Device_CreateHIDReport m s zeroReport).ReportData.Buttons.testBit j)
        = (List.range 16).countP (fun j => buttonInput m s j) := by
      apply List.countP_congr
      intro j hj
      rw [buttons_testBit m s zeroReport j (List.mem_range.mp hj)]
      simp [zeroReport]
    have h2 : (List.range 16).map (fun j => buttonInput m s j)
        = (buttonTable m s).map (fun e => e.1) := rfl
    rw [h1]
    have h3 := List.countP_map (fun b : Bool => b) (fun j => buttonInput m s j) (List.range 16)
    have h4 := List.countP_map (fun b : Bool => b) (fun e : Bool × Nat => e.1) (buttonTable m s)
    rw [h2] at h3
    rw [h4] at h3
    simpa [Function.comp] using h3.symm

end Joystick

namespace KeyboardMouse

theorem slotsOver_snoc_lt (old w : List Nat) (c : Nat) (ho : old.length = 6)
    (h : w.length < 6) :
    (slotsOver old w).set w.length c = slotsOver old (w ++ [c]) := by
  unfold slotsOver
  rcases old with _|⟨o0, _|⟨o1, _|⟨o2, _|⟨o3, _|⟨o4, _|⟨o5, _|⟨o6, old⟩⟩⟩⟩⟩⟩⟩ <;>
    simp at ho
  rcases w with _|⟨a0, _|⟨a1, _|⟨a2, _|⟨a3, _|⟨a4, _|⟨a5, w⟩⟩⟩⟩⟩⟩
  · rfl
  · rfl
  · rfl
  · rfl
  · rfl
  · rfl
  · simp at h
    omega

theorem slotsOver_snoc_ge (old w : List Nat) (c : Nat) (ho : old.length = 6)
    (h : 6 ≤ w.length) :
    slotsOver old (w ++ [c]) = slotsOver old w := by
  unfold slotsOver
  rw [List.take_append_of_le_length h, List.length_append,
    List.drop_eq_nil_of_le (by simp; omega), List.drop_eq_nil_of_le (by omega)]

theorem putKeyCode_scanOver (buf : USB_KeyboardReport_Data_t) (ho : buf.KeyCode.length = 6)
    (w : List Nat) (c : Nat) (h : w.length < 255) :
    putKeyCode (scanOver buf w) true c = scanOver buf (w ++ [c % 256]) := by
  unfold putKeyCode scanOver
  simp only [if_true]
  by_cases h6 : w.length < 6
  · simp only [h6, if_true]
    rw [slotsOver_snoc_lt buf.KeyCode w _ ho h6, List.length_append, List.length_singleton,
      Nat.mod_eq_of_lt (show w.length + 1 < 256 by omega)]
    have e1 : List.drop 6 w.enum = [] := by
      apply List.drop_eq_nil_of_le; simp; omega
    have e2 : List.drop 6 (w ++ [c % 256]).enum = [] := by
      apply List.drop_eq_nil_of_le; simp; omega
    rw [e1, e2]
  · simp only [h6, if_false]
    rw [slotsOver_snoc_ge buf.KeyCode w _ ho (by omega), List.length_append,
      List.length_singleton, Nat.mod_eq_of_lt (show w.length + 1 < 256 by omega)]
    have e : (w ++ [c % 256]).enum = w.enum ++ [(w.length, c % 256)] := by
      simp [List.enum, List.enumFrom_append]
    rw [e, List.drop_append_of_le_length (by simp; omega)]

theorem foldl_putKeyCode_scanOver (buf : USB_KeyboardReport_Data_t)
    (ho : buf.KeyCode.length = 6) (t : List (Bool × Nat)) (w : List Nat)
    (h : w.length + t.length < 256) :
    t.foldl (fun st e => putKeyCode st e.1 e.2) (scanOver buf w)
      = scanOver buf (w ++ pressedOf t) := by
  induction t generalizing w with
  | nil => simp [pressedOf]
  | cons e t ih =>
    obtain ⟨b, c⟩ := e
    simp only [List.length_cons] at h
    cases b
    · have hp : pressedOf ((false, c) :: t) = pressedOf t := by simp [pressedOf]
      rw [hp, List.foldl_cons]
      have : putKeyCode (scanOver buf w) false c = scanOver buf w := rfl
      rw [this]
      exact ih w (by omega)
    · have hp : pressedOf ((true, c) :: t) = (c % 256) :: pressedOf t := by simp [pressedOf]
      rw [hp, List.foldl_cons]
      show List.foldl _ (putKeyCode (scanOver buf w) true c) t = _
      rw [putKeyCode_scanOver buf ho w c (by omega), ih (w ++ [c % 256]) (by simp; omega)]
      simp

/-- The whole scan on any six-slot buffer: only the key-code slots the
appends reach change. -/
theorem keyboardScan_any (m : Masks) (k : ScanCodes) (s : InputSnapshot)
    (buf : USB_KeyboardReport_Data_t) (ho : buf.KeyCode.length = 6) :
    keyboardScan m k s buf = scanOver buf (pressedKeyCodes m k s) := by
  rw [keyboardScan_eq_foldl]
  have h := foldl_putKeyCode_scanOver buf ho (keyTable m k s) [] (by simp [keyTable])
  have h0 : scanOver buf [] = { report := buf, UsedKeyCodes := 0, pastEnd := [] } := by
    simp [scanOver, slotsOver]
  rw [h0] at h
  simpa [pressedKeyCodes] using h

theorem foldl_putKeyCode_Used (t : List (Bool × Nat)) (st : KeyboardScan)
    (h : st.UsedKeyCodes + t.length < 256) :
    (t.foldl (fun st e => putKeyCode st e.1 e.2) st).UsedKeyCodes
      = st.UsedKeyCodes + t.countP (fun e => e.1) := by
  induction t generalizing st with
  | nil => simp
  | cons e t ih =>
    obtain ⟨b, c⟩ := e
    simp only [List.length_cons] at h
    rw [List.foldl_cons]
    cases b
    · have : putKeyCode st false c = st := rfl
      rw [this, ih st (by omega)]
      simp
    · have hu : (putKeyCode st true c).UsedKeyCodes = st.UsedKeyCodes + 1 := by
        simp only [putKeyCode, if_true]
        exact Nat.mod_eq_of_lt (by omega)
      rw [ih _ (by rw [hu]; omega), hu]
      simp
      omega

theorem keyTable_eq_map (m : Masks) (k : ScanCodes) (s : InputSnapshot) :
    keyTable m k s = scanOrder.map (fun i => (i.isAsserted m s, i.code k)) := rfl

theorem mem_scanOrder (i : KeyInput) : i ∈ scanOrder := by
  cases i <;> decide

theorem pressedKeyCodes_eq_filter (m : Masks) (k : ScanCodes) (s : InputSnapshot) :
    pressedKeyCodes m k s
      = (scanOrder.filter (fun i => i.isAsserted m s)).map (fun i => i.code k % 256) := by
  simp only [pressedKeyCodes, pressedOf, keyTable_eq_map, List.filter_map, List.map_map]
  rfl

theorem code_mem_pressed (m : Masks) (k : ScanCodes) (s : InputSnapshot)
    (hk : codesDistinctNonzero k) (i : KeyInput) :
    i.code k % 256 ∈ pressedKeyCodes m k s ↔ i.isAsserted m s = true := by
  rw [pressedKeyCodes_eq_filter, List.mem_map]
  constructor
  · rintro ⟨j, hj, hji⟩
    rw [List.mem_filter] at hj
    have hinj := List.inj_on_of_nodup_map hk.1
    have : j = i := hinj (mem_scanOrder j) (mem_scanOrder i) hji
    rw [← this]
    exact hj.2
  · intro hi
    exact ⟨i, List.mem_filter.mpr ⟨mem_scanOrder i, hi⟩, rfl⟩

theorem code_mem_KeyCode (m : Masks) (k : ScanCodes) (s : InputSnapshot)
    (hk : codesDistinctNonzero k) (h : assertedKeyCount m k s ≤ 6) (i : KeyInput) :
    i.code k % 256 ∈ (CALLBACK_HID_Device_CreateHIDReport m k s .Keyboard_HID_Interface
        zeroKeyboardReport).ReportData.KeyCode ↔ i.isAsserted m s = true := by
  have hl := pressedKeyCodes_length m k s
  have hne : i.code k % 256 ≠ 0 := by
    intro h0
    apply hk.2
    rw [← h0]
    exact List.mem_map.mpr ⟨i, mem_scanOrder i, rfl⟩
  simp only [CALLBACK_HID_Device_CreateHIDReport, createKeyboardReport, keyboardScan_zero,
    scanAfter, slotsAfter]
  rw [List.take_of_length_le (by omega), List.mem_append, List.mem_replicate,
    code_mem_pressed m k s hk i]
  constructor
  · rintro (h1 | h2)
    · exact h1
    · exact absurd h2.2 hne
  · intro h1
    exact Or.inl h1

/-- C19: the fourteen key codes (here the USB HID usage codes of the named
keys) are non-zero and pairwise distinct; and for any fourteen non-zero,
pairwise distinct key codes, two snapshots that each assert at most six key
inputs and differ in some key input give different keyboard reports on a
zeroed buffer. -/
theorem keyboard_report_identifies_keys :
    codesDistinctNonzero usageCodes
    ∧ ∀ (m : Masks) (k : ScanCodes) (s t : InputSnapshot),
        codesDistinctNonzero k →
        assertedKeyCount m k s ≤ 6 → assertedKeyCount m k t ≤ 6 →
        (∃ i : KeyInput, i.isAsserted m s ≠ i.isAsserted m t) →
        (CALLBACK_HID_Device_CreateHIDReport m k s .Keyboard_HID_Interface
            zeroKeyboardReport).ReportData
          ≠ (CALLBACK_HID_Device_CreateHIDReport m k t .Keyboard_HID_Interface
            zeroKeyboardReport).ReportData := by
  refine ⟨by decide, ?_⟩
  intro m k s t hk hs ht ⟨i, hi⟩ heq
  apply hi
  have h1 := code_mem_KeyCode m k s hk hs i
  have h2 := code_mem_KeyCode m k t hk ht i
  rw [heq] at h1
  have h3 : i.isAsserted m s = true ↔ i.isAsserted m t = true := h1.symm.trans h2
  cases hs' : i.isAsserted m s <;> cases ht' : i.isAsserted m t <;> simp_all

/-- C19 at BUTTON3 alone against BUTTON3 with GPIO6: the reports differ. -/
theorem keyboard_report_identifies_keys_witness :
    (CALLBACK_HID_Device_CreateHIDReport sampleMasks usageCodes
        { idleSnapshot with Buttons := 4 } .Keyboard_HID_Interface
        zeroKeyboardReport).ReportData
      ≠ (CALLBACK_HID_Device_CreateHIDReport sampleMasks usageCodes
        { idleSnapshot with Buttons := 4, GPIOC := 1 } .Keyboard_HID_Interface
        zeroKeyboardReport).ReportData :=
  keyboard_report_identifies_keys.2 sampleMasks usageCodes
    { idleSnapshot with Buttons := 4 } { idleSnapshot with Buttons := 4, GPIOC := 1 }
    (by decide) (by decide) (by decide) ⟨.GPIO6, by decide⟩

/-- C16, as stated, fails: with every key input asserted the append cursor is
advanced fourteen times, not at most twelve; the table has fourteen entries,
six of them GPIO lines. -/
theorem keyboard_fourteen_appends :
    (keyboardScan sampleMasks usageCodes allKeysSnapshot zeroKeyboardReport).UsedKeyCodes = 14
    ∧ ¬ (keyboardScan sampleMasks usageCodes allKeysSnapshot
          zeroKeyboardReport).UsedKeyCodes ≤ 12
    ∧ (keyTable sampleMasks usageCodes allKeysSnapshot).length = 14 := by
  decide

/-- C16 (amended): the keyboard branch tests fourteen distinct inputs (two
utility, six face buttons, six GPIO lines: two of bank D, three of bank B, one
of bank C), each with one fixed key code, and the append cursor ends at the
number of asserted inputs, so it is advanced at most fourteen times in one
poll. -/
theorem keyboard_inputs_count (m : Masks) (k : ScanCodes) (s : InputSnapshot)
    (buf : USB_KeyboardReport_Data_t) :
    keyTable m k s = scanOrder.map (fun i => (i.isAsserted m s, i.code k))
    ∧ scanOrder.length = 14 ∧ scanOrder.Nodup
    ∧ scanOrder.countP (fun i => i.group = .Util) = 2
    ∧ scanOrder.countP (fun i => i.group = .Buttons) = 6
    ∧ scanOrder.countP (fun i => i.group = .GPIOD) = 2
    ∧ scanOrder.countP (fun i => i.group = .GPIOB) = 3
    ∧ scanOrder.countP (fun i => i.group = .GPIOC) = 1
    ∧ (keyboardScan m k s buf).UsedKeyCodes = assertedKeyCount m k s
    ∧ (keyboardScan m k s buf).UsedKeyCodes ≤ 14 := by
  have hu : (keyboardScan m k s buf).UsedKeyCodes = assertedKeyCount m k s := by
    rw [keyboardScan_eq_foldl, foldl_putKeyCode_Used _ _ (by simp [keyTable])]
    simp [assertedKeyCount]
  have hle : assertedKeyCount m k s ≤ 14 := by
    unfold assertedKeyCount
    have hlen : (keyTable m k s).length = 14 := rfl
    have := List.countP_le_length (fun e : Bool × Nat => e.1) (l := keyTable m k s)
    omega
  refine ⟨rfl, by decide, by decide, by decide, by decide, by decide, by decide, by decide,
    hu, ?_⟩
  rw [hu]
  exact hle

end KeyboardMouse

/-! ## Theorems: dependence on the buffer on entry -/

theorem testBit_orBit8 (B k j : Nat) (hj : j < 8) :
    ((B ||| 1 <<< k) % 256).testBit j = (B.testBit j || decide (k = j)) := by
  rw [show (256 : Nat) = 2 ^ 8 from rfl, Nat.testBit_mod_two_pow, Nat.testBit_or,
    Nat.shiftLeft_eq, Nat.one_mul, Nat.testBit_two_pow]
  simp [hj]

/-- C15, as stated, fails: with no input asserted each of the three builders
leaves a non-zero buffer as it was, so the report built from it differs from
the report built from a zeroed buffer. -/
theorem reports_depend_on_buffer :
    (Joystick.CALLBACK_HID_Device_CreateHIDReport sampleMasks idleSnapshot
        Joystick.zeroReport).ReportData
      ≠ (Joystick.CALLBACK_HID_Device_CreateHIDReport sampleMasks idleSnapshot
        { X := 7, Y := -3, Buttons := 1 }).ReportData
    ∧ (KeyboardMouse.CALLBACK_HID_Device_CreateHIDReport sampleMasks usageCodes idleSnapshot
        .Keyboard_HID_Interface KeyboardMouse.zeroKeyboardReport).ReportData
      ≠ (KeyboardMouse.CALLBACK_HID_Device_CreateHIDReport sampleMasks usageCodes idleSnapshot
        .Keyboard_HID_Interface
        { Modifier := 2, Reserved := 0, KeyCode := [4, 0, 0, 0, 0, 0] }).ReportData
    ∧ (KeyboardMouse.CALLBACK_HID_Device_CreateHIDReport sampleMasks usageCodes idleSnapshot
        .Mouse_HID_Interface KeyboardMouse.zeroMouseReport).ReportData
      ≠ (KeyboardMouse.CALLBACK_HID_Device_CreateHIDReport sampleMasks usageCodes idleSnapshot
        .Mouse_HID_Interface { Button := 1, X := 5, Y := 0 }).ReportData := by
  decide

/-- C15 (amended): each builder changes only what a mapping rule sets and
keeps the buffer's content on entry everywhere else. Joystick and mouse: an
axis with neither direction asserted keeps its value, a button bit whose input
is not asserted keeps its value. Keyboard: `Modifier` and `Reserved` keep their
values, the first slots receive the key codes, the remaining slots keep
theirs. On a zeroed buffer what no rule sets is therefore zero. -/
theorem builders_keep_unset_fields (m : Masks) (k : KeyboardMouse.ScanCodes)
    (s : InputSnapshot) (bj : Joystick.USB_JoystickReport_Data_t)
    (bk : KeyboardMouse.USB_KeyboardReport_Data_t) (hk : bk.KeyCode.length = 6)
    (bm : KeyboardMouse.USB_MouseReport_Data_t) :
    ((Joystick.CALLBACK_HID_Device_CreateHIDReport m s bj).ReportData.Y
        = (if asserted s.Joy m.JOY_UP then -100
           else if asserted s.Joy m.JOY_DOWN then 100 else bj.Y)
      ∧ (Joystick.CALLBACK_HID_Device_CreateHIDReport m s bj).ReportData.X
        = (if asserted s.Joy m.JOY_LEFT then -100
           else if asserted s.Joy m.JOY_RIGHT then 100 else bj.X)
      ∧ ∀ j : Nat, j < 16 →
          (Joystick.CALLBACK_HID_Device_CreateHIDReport m s bj).ReportData.Buttons.testBit j
            = (bj.Buttons.testBit j || Joystick.buttonInput m s j))
    ∧ ((KeyboardMouse.CALLBACK_HID_Device_CreateHIDReport m k s
          .Keyboard_HID_Interface bk).ReportData
        = { Modifier := bk.Modifier, Reserved := bk.Reserved,
            KeyCode := (KeyboardMouse.pressedKeyCodes m k s).take 6
              ++ bk.KeyCode.drop (KeyboardMouse.pressedKeyCodes m k s).length })
    ∧ ((KeyboardMouse.CALLBACK_HID_Device_CreateHIDReport m k s
          .Mouse_HID_Interface bm).ReportData.Y
        = (if asserted s.Joy m.JOY_UP then -1
           else if asserted s.Joy m.JOY_DOWN then 1 else bm.Y)
      ∧ (KeyboardMouse.CALLBACK_HID_Device_CreateHIDReport m k s
          .Mouse_HID_Interface bm).ReportData.X
        = (if asserted s.Joy m.JOY_LEFT then -1
           else if asserted s.Joy m.JOY_RIGHT then 1 else bm.X)
      ∧ ∀ j : Nat, j < 8 →
          (KeyboardMouse.CALLBACK_HID_Device_CreateHIDReport m k s
            .Mouse_HID_Interface bm).ReportData.Button.testBit j
            = (bm.Button.testBit j
                || (decide (j = 0) && asserted s.Util m.UTIL_START)
                || (decide (j = 1) && asserted s.Util m.UTIL_SELECT))) := by
  refine ⟨⟨?_, ?_, fun j hj => Joystick.buttons_testBit m s bj j hj⟩, ?_, ?_, ?_, ?_⟩
  · simp only [Joystick.CALLBACK_HID_Device_CreateHIDReport, Joystick.orButton_Y]
    cases asserted s.Joy m.JOY_UP <;> cases asserted s.Joy m.JOY_DOWN <;>
      cases asserted s.Joy m.JOY_LEFT <;> cases asserted s.Joy m.JOY_RIGHT <;> rfl
  · simp only [Joystick.CALLBACK_HID_Device_CreateHIDReport, Joystick.orButton_X]
    cases asserted s.Joy m.JOY_UP <;> cases asserted s.Joy m.JOY_DOWN <;>
      cases asserted s.Joy m.JOY_LEFT <;> cases asserted s.Joy m.JOY_RIGHT <;> rfl
  · simp only [KeyboardMouse.CALLBACK_HID_Device_CreateHIDReport,
      KeyboardMouse.createKeyboardReport, KeyboardMouse.keyboardScan_any m k s bk hk,
      KeyboardMouse.scanOver, KeyboardMouse.slotsOver]
  · simp only [KeyboardMouse.CALLBACK_HID_Device_CreateHIDReport,
      KeyboardMouse.createMouseReport]
    cases asserted s.Joy m.JOY_UP <;> cases asserted s.Joy m.JOY_DOWN <;>
      cases asserted s.Joy m.JOY_LEFT <;> cases asserted s.Joy m.JOY_RIGHT <;>
      cases asserted s.Util m.UTIL_START <;> cases asserted s.Util m.UTIL_SELECT <;> rfl
  · simp only [KeyboardMouse.CALLBACK_HID_Device_CreateHIDReport,
      KeyboardMouse.createMouseReport]
    cases asserted s.Joy m.JOY_UP <;> cases asserted s.Joy m.JOY_DOWN <;>
      cases asserted s.Joy m.JOY_LEFT <;> cases asserted s.Joy m.JOY_RIGHT <;>
      cases asserted s.Util m.UTIL_START <;> cases asserted s.Util m.UTIL_SELECT <;> rfl
  · intro j hj
    have h0 : ∀ B : Nat, ((B ||| 1) % 256).testBit j = (B.testBit j || decide (j = 0)) := by
      intro B
      have h := testBit_orBit8 B 0 j hj
      simpa [eq_comm] using h
    have h1 : ∀ B : Nat, ((B ||| 2) % 256).testBit j = (B.testBit j || decide (j = 1)) := by
      intro B
      have h := testBit_orBit8 B 1 j hj
      simpa [eq_comm] using h
    simp only [KeyboardMouse.CALLBACK_HID_Device_CreateHIDReport,
      KeyboardMouse.createMouseReport]
    cases asserted s.Joy m.JOY_UP <;> cases asserted s.Joy m.JOY_DOWN <;>
      cases asserted s.Joy m.JOY_LEFT <;> cases asserted s.Joy m.JOY_RIGHT <;>
      cases asserted s.Util m.UTIL_START <;> cases asserted s.Util m.UTIL_SELECT <;>
      simp [h0, h1]

/-- C15 (amended) at BUTTON1 asserted on a keyboard buffer that held six old
codes: slot 0 receives the new code, slots 1..5 and `Modifier` keep their
content. -/
theorem builders_keep_unset_fields_witness :
    (KeyboardMouse.CALLBACK_HID_Device_CreateHIDReport sampleMasks usageCodes
        { idleSnapshot with Buttons := 1 } .Keyboard_HID_Interface
        { Modifier := 2, Reserved := 0, KeyCode := [4, 5, 6, 7, 8, 9] }).ReportData
      = { Modifier := 2, Reserved := 0, KeyCode := [0xE0, 5, 6, 7, 8, 9] } := by
  have h := (builders_keep_unset_fields sampleMasks usageCodes
    { idleSnapshot with Buttons := 1 } Joystick.zeroReport
    { Modifier := 2, Reserved := 0, KeyCode := [4, 5, 6, 7, 8, 9] } rfl
    KeyboardMouse.zeroMouseReport).2.1
  rw [h]
  decide

end Picade
